import Mathlib

/-!
Shallow embedding of the RISC-V IOMMU model in `hw/riscv/riscv-iommu.c`
(register file with rw/ro/wc masking, command/fault/page-request queues,
device directory walker, MSI redirection, context cache), together with
proofs about the properties claimed for it.

Machine integers are modelled as `Nat` with explicit masking where the C
code truncates.  Byte memory and the three register shadow arrays are
modelled as functions `Nat → Nat` holding byte values; multi-byte
accesses are little-endian, as in the device model.
-/

namespace RiscvIOMMU

/-! ## Bit manipulation helpers -/

/-- All-ones mask of width `w` bits. -/
def bmask (w : Nat) : Nat := 2 ^ w - 1

/-- 32-bit complement, as C's `~x` on a `uint32_t`. -/
def compl32 (x : Nat) : Nat := bmask 32 ^^^ (x &&& bmask 32)

/-- 64-bit complement, as C's `~x` on a `uint64_t`. -/
def compl64 (x : Nat) : Nat := bmask 64 ^^^ (x &&& bmask 64)

/-- Contiguous bit-field mask with low bit `lo` and width `w`
(C `GENMASK_ULL(lo+w-1, lo)`). -/
def fieldMask (lo w : Nat) : Nat := bmask w <<< lo

/-- `get_field(v, GENMASK(lo+w-1, lo))`: extract a bit field. -/
def getField (v lo w : Nat) : Nat := (v >>> lo) &&& bmask w

/-- `set_field(v, GENMASK(lo+w-1, lo), x)`: deposit a bit field. -/
def setField (v lo w x : Nat) : Nat :=
  (v &&& compl64 (fieldMask lo w)) ||| ((x &&& bmask w) <<< lo)

/-- `PPN_PHYS(ppn) = ppn << TARGET_PAGE_BITS` with 4 KiB pages. -/
def ppnPhys (ppn : Nat) : Nat := ppn <<< 12

/-- Modelled from the spec: QEMU's `TARGET_PAGE_MASK` for the 4 KiB target
page size, as a 64-bit value (`~0xFFF`).  The macro itself is outside
`src/`; the value is pinned by the spec's 12-bit page offset and by this
file's uses of `~TARGET_PAGE_MASK` as the in-page offset mask. -/
def pageMaskHi : Nat := compl64 0xFFF

/-- `~TARGET_PAGE_MASK`: the in-page offset mask `0xFFF`. -/
def pageMaskLo : Nat := 0xFFF

/-! ## Little-endian byte array access

The register shadows and the downstream DMA memory are byte arrays,
modelled as functions from address to byte value. -/

/-- Little-endian load of `size` bytes at `addr` (bytes taken mod 256). -/
def ldLE (f : Nat → Nat) (addr : Nat) : Nat → Nat
  | 0 => 0
  | n + 1 => (f addr % 256) + 256 * ldLE f (addr + 1) n

/-- Little-endian store of the low `size` bytes of `v` at `addr`. -/
def stLE (f : Nat → Nat) (addr size v : Nat) : Nat → Nat :=
  fun a => if addr ≤ a ∧ a < addr + size then v / 256 ^ (a - addr) % 256 else f a

theorem ldLE_congr {f g : Nat → Nat} {addr : Nat} (n : Nat)
    (h : ∀ i, i < n → f (addr + i) = g (addr + i)) :
    ldLE f addr n = ldLE g addr n := by
  induction n generalizing addr with
  | zero => rfl
  | succ n ih =>
    have h0 : f addr = g addr := by simpa using h 0 (Nat.succ_pos n)
    have hrest : ∀ i, i < n → f (addr + 1 + i) = g (addr + 1 + i) := by
      intro i hi
      have := h (i + 1) (Nat.succ_lt_succ hi)
      simpa [Nat.add_assoc, Nat.add_comm 1 i] using this
    simp [ldLE, h0, ih hrest]

theorem stLE_inside (f : Nat → Nat) (addr size v i : Nat) (hi : i < size) :
    stLE f addr size v (addr + i) = v / 256 ^ i % 256 := by
  have hc : addr ≤ addr + i ∧ addr + i < addr + size := ⟨Nat.le_add_right _ _, by omega⟩
  simp [stLE, hc]

theorem stLE_outside (f : Nat → Nat) (addr size v a : Nat)
    (h : a < addr ∨ addr + size ≤ a) :
    stLE f addr size v a = f a := by
  have hc : ¬ (addr ≤ a ∧ a < addr + size) := by omega
  simp [stLE, hc]

theorem mod_mul_pow_succ (v n : Nat) :
    v % 256 ^ (n + 1) = v % 256 + 256 * (v / 256 % 256 ^ n) := by
  have hpow : (256 : Nat) ^ (n + 1) = 256 * 256 ^ n := by rw [pow_succ, Nat.mul_comm]
  have hq : (256 * (v / 256)) % 256 ^ (n + 1) = 256 * (v / 256 % 256 ^ n) := by
    rw [hpow]
    exact Nat.mul_mod_mul_left 256 _ _
  have hr : v % 256 % 256 ^ (n + 1) = v % 256 := by
    apply Nat.mod_eq_of_lt
    have h1 : v % 256 < 256 := Nat.mod_lt _ (by norm_num)
    calc v % 256 < 256 := h1
      _ ≤ 256 ^ (n + 1) := by
          calc (256 : Nat) = 256 ^ 1 := (pow_one 256).symm
            _ ≤ 256 ^ (n + 1) := Nat.pow_le_pow_right (by norm_num) (by omega)
  have hlt : 256 * (v / 256 % 256 ^ n) + v % 256 < 256 ^ (n + 1) := by
    have h1 : v / 256 % 256 ^ n < 256 ^ n := Nat.mod_lt _ (Nat.pos_pow_of_pos n (by norm_num))
    have h2 : v % 256 < 256 := Nat.mod_lt _ (by norm_num)
    rw [hpow]
    omega
  calc v % 256 ^ (n + 1)
      = (256 * (v / 256) + v % 256) % 256 ^ (n + 1) := by rw [Nat.div_add_mod]
    _ = ((256 * (v / 256)) % 256 ^ (n + 1) + v % 256 % 256 ^ (n + 1)) % 256 ^ (n + 1) := by
        rw [Nat.add_mod]
    _ = (256 * (v / 256 % 256 ^ n) + v % 256) % 256 ^ (n + 1) := by rw [hq, hr]
    _ = 256 * (v / 256 % 256 ^ n) + v % 256 := Nat.mod_eq_of_lt hlt
    _ = v % 256 + 256 * (v / 256 % 256 ^ n) := by rw [Nat.add_comm]

/-- Reading back a just-stored value yields the value modulo the width. -/
theorem ldLE_stLE (f : Nat → Nat) (addr v : Nat) :
    ∀ n, ldLE (stLE f addr n v) addr n = v % 256 ^ n := by
  intro n
  induction n generalizing f addr v with
  | zero => simp [ldLE, Nat.mod_one]
  | succ n ih =>
    have hbyte : stLE f addr (n + 1) v addr = v % 256 := by
      have := stLE_inside f addr (n + 1) v 0 (Nat.succ_pos n)
      simpa using this
    have hshift :
        ldLE (stLE f addr (n + 1) v) (addr + 1) n =
          ldLE (stLE f (addr + 1) n (v / 256)) (addr + 1) n := by
      apply ldLE_congr
      intro i hi
      rw [stLE_inside f (addr + 1) n (v / 256) i hi]
      have h1 : addr + 1 + i = addr + (i + 1) := by omega
      rw [h1, stLE_inside f addr (n + 1) v (i + 1) (by omega)]
      rw [Nat.div_div_eq_div_mul, ← pow_succ']
    rw [ldLE, hbyte, hshift, ih, mod_mul_pow_succ]
    simp [Nat.mod_mod_of_dvd]

/-- A store does not affect a load from a disjoint byte range. -/
theorem ldLE_stLE_disjoint (f : Nat → Nat) (addr size v a : Nat) (n : Nat)
    (h : a + n ≤ addr ∨ addr + size ≤ a) :
    ldLE (stLE f addr size v) a n = ldLE f a n := by
  apply ldLE_congr
  intro i hi
  apply stLE_outside
  omega

/-! ## Register map and bit-field constants

Modelled from the spec: the register offsets, CSR bit positions and
in-memory structure layouts below come from `riscv-iommu-bits.h`, which is
part of this repository but not under `src/`; the spec requires them to
"match the RISC-V IOMMU architecture document" (§6), whose values these
are.  None of the claims' truth depends on the particular numeric choices
beyond field disjointness and the 4 KiB page size. -/

def REG_CAP : Nat := 0x0
def REG_FCTL : Nat := 0x8
def REG_DDTP : Nat := 0x10
def REG_CQB : Nat := 0x18
def REG_CQH : Nat := 0x20
def REG_CQT : Nat := 0x24
def REG_FQB : Nat := 0x28
def REG_FQH : Nat := 0x30
def REG_FQT : Nat := 0x34
def REG_PQB : Nat := 0x38
def REG_PQH : Nat := 0x40
def REG_PQT : Nat := 0x44
def REG_CQCSR : Nat := 0x48
def REG_FQCSR : Nat := 0x4C
def REG_PQCSR : Nat := 0x50
def REG_IPSR : Nat := 0x54
def REG_IVEC : Nat := 0x2F8
def REG_MSI_CONFIG : Nat := 0x300

def FCTL_BE : Nat := 1 <<< 0
def FCTL_WSI : Nat := 1 <<< 1

def DDTP_MODE_LO : Nat := 0
def DDTP_MODE_W : Nat := 4
def DDTP_BUSY : Nat := 1 <<< 4
def DDTP_PPN : Nat := fieldMask 10 44

def DDTP_MODE_OFF : Nat := 0
def DDTP_MODE_BARE : Nat := 1
def DDTP_MODE_1LVL : Nat := 2
def DDTP_MODE_2LVL : Nat := 3
def DDTP_MODE_3LVL : Nat := 4

def QB_LOG2SZ_LO : Nat := 0
def QB_LOG2SZ_W : Nat := 5
def QB_PPN_LO : Nat := 10
def QB_PPN_W : Nat := 44

def CQCSR_CQEN : Nat := 1 <<< 0
def CQCSR_CIE : Nat := 1 <<< 1
def CQCSR_CQMF : Nat := 1 <<< 8
def CQCSR_CMD_TO : Nat := 1 <<< 9
def CQCSR_CMD_ILL : Nat := 1 <<< 10
def CQCSR_FENCE_W_IP : Nat := 1 <<< 11
def CQCSR_CQON : Nat := 1 <<< 16
def CQCSR_BUSY : Nat := 1 <<< 17

def FQCSR_FQEN : Nat := 1 <<< 0
def FQCSR_FIE : Nat := 1 <<< 1
def FQCSR_FQMF : Nat := 1 <<< 8
def FQCSR_FQOF : Nat := 1 <<< 9
def FQCSR_FQON : Nat := 1 <<< 16
def FQCSR_BUSY : Nat := 1 <<< 17

def PQCSR_PQEN : Nat := 1 <<< 0
def PQCSR_PIE : Nat := 1 <<< 1
def PQCSR_PQMF : Nat := 1 <<< 8
def PQCSR_PQOF : Nat := 1 <<< 9
def PQCSR_PQON : Nat := 1 <<< 16
def PQCSR_BUSY : Nat := 1 <<< 17

def IPSR_CIP : Nat := 1 <<< 0
def IPSR_FIP : Nat := 1 <<< 1
def IPSR_PIP : Nat := 1 <<< 3

def INTR_CQ : Nat := 0
def INTR_FQ : Nat := 1
def INTR_PQ : Nat := 3

def CAP_MSI_FLAT : Nat := 1 <<< 22
def CAP_MSI_MRIF : Nat := 1 <<< 23
def CAP_T2GPA : Nat := 1 <<< 26

/-- Device context `tc` bits. -/
def DC_TC_V : Nat := 1 <<< 0
def DC_TC_EN_PRI : Nat := 1 <<< 2
def DC_TC_T2GPA : Nat := 1 <<< 3
def DC_TC_DTF : Nat := 1 <<< 4
def DC_TC_PDTV : Nat := 1 <<< 5
def DC_TC_PRPR : Nat := 1 <<< 6
def DC_TC_SBE : Nat := 1 <<< 10

/-- Device context `msiptp` fields. -/
def DC_MSIPTP_PPN_LO : Nat := 0
def DC_MSIPTP_PPN_W : Nat := 44
def DC_MSIPTP_MODE_LO : Nat := 60
def DC_MSIPTP_MODE_W : Nat := 4
def DC_MSIPTP_MODE_OFF : Nat := 0
def DC_MSIPTP_MODE_FLAT : Nat := 1

/-- Device directory non-leaf entry bits. -/
def DDTE_VALID : Nat := 1 <<< 0
def DDTE_PPN : Nat := fieldMask 10 44

/-- Process context fields. -/
def PC_TA_V : Nat := 1 <<< 0
def PC_TA_RESERVED : Nat := fieldMask 32 32 ||| fieldMask 1 11
def PC_FSC_PPN_LO : Nat := 10
def PC_FSC_PPN_W : Nat := 44
def DC_FSC_PDTP_MODE_PD8 : Nat := 1
def DC_FSC_PDTP_MODE_PD20 : Nat := 3

/-- MSI page table entry bits. -/
def MSI_PTE_V : Nat := 1 <<< 0
def MSI_PTE_M_LO : Nat := 1
def MSI_PTE_M_W : Nat := 2
def MSI_PTE_M_MRIF : Nat := 1
def MSI_PTE_M_BASIC : Nat := 3
def MSI_PTE_MRIF_ADDR_LO : Nat := 7
def MSI_PTE_MRIF_ADDR_W : Nat := 47
def MSI_PTE_PPN_LO : Nat := 10
def MSI_PTE_PPN_W : Nat := 44
def MSI_PTE_C : Nat := 1 <<< 63
def MSI_MRIF_NID_LO : Nat := 0
def MSI_MRIF_NID_W : Nat := 10
def MSI_MRIF_NPPN_LO : Nat := 10
def MSI_MRIF_NPPN_W : Nat := 44
def MSI_MRIF_NID_MSB : Nat := 1 <<< 60

/-- Fault queue record header fields. -/
def FQ_HDR_CAUSE_LO : Nat := 0
def FQ_HDR_CAUSE_W : Nat := 12
def FQ_HDR_PID_LO : Nat := 12
def FQ_HDR_PID_W : Nat := 20
def FQ_HDR_PV_LO : Nat := 32
def FQ_HDR_PV : Nat := 1 <<< 32
def FQ_HDR_TTYPE_LO : Nat := 34
def FQ_HDR_TTYPE_W : Nat := 6
def FQ_HDR_DID_LO : Nat := 40
def FQ_HDR_DID_W : Nat := 24

/-- Fault cause encodings. -/
def CAUSE_DMA_DISABLED : Nat := 256
def CAUSE_DDT_LOAD_FAULT : Nat := 257
def CAUSE_DDT_INVALID : Nat := 258
def CAUSE_DDT_MISCONFIGURED : Nat := 259
def CAUSE_TTYPE_BLOCKED : Nat := 260
def CAUSE_MSI_LOAD_FAULT : Nat := 261
def CAUSE_MSI_INVALID : Nat := 262
def CAUSE_MSI_MISCONFIGURED : Nat := 263
def CAUSE_PDT_LOAD_FAULT : Nat := 265
def CAUSE_PDT_INVALID : Nat := 266
def CAUSE_PDT_MISCONFIGURED : Nat := 267
def CAUSE_DDT_CORRUPTED : Nat := 268
def CAUSE_MSI_PT_CORRUPTED : Nat := 270
def CAUSE_INTERNAL_DP_ERROR : Nat := 272
def CAUSE_MSI_WR_FAULT : Nat := 273

/-- Fault transaction types. -/
def FQ_TTYPE_UADDR_RD : Nat := 2
def FQ_TTYPE_UADDR_WR : Nat := 3

/-- Page request queue header fields. -/
def PREQ_HDR_PID_LO : Nat := 12
def PREQ_HDR_PID_W : Nat := 20
def PREQ_HDR_PV : Nat := 1 <<< 32
def PREQ_HDR_DID_LO : Nat := 40
def PREQ_HDR_DID_W : Nat := 24
def PREQ_PAYLOAD_M : Nat := 1 <<< 2

/-- Command record fields: opcode in bits 6:0, function in bits 9:7. -/
def CMD_OPFUNC_LO : Nat := 0
def CMD_OPFUNC_W : Nat := 10
def CMD_IOTINVAL_OPCODE : Nat := 1
def CMD_IOTINVAL_FUNC_VMA : Nat := 0
def CMD_IOTINVAL_FUNC_GVMA : Nat := 1
def CMD_IOTINVAL_PSCV : Nat := 1 <<< 32
def CMD_IOFENCE_OPCODE : Nat := 2
def CMD_IOFENCE_FUNC_C : Nat := 0
def CMD_IOFENCE_AV : Nat := 1 <<< 10
def CMD_IOFENCE_DATA_LO : Nat := 32
def CMD_IOFENCE_DATA_W : Nat := 32
def CMD_IODIR_OPCODE : Nat := 3
def CMD_IODIR_FUNC_INVAL_DDT : Nat := 0
def CMD_IODIR_FUNC_INVAL_PDT : Nat := 1
def CMD_IODIR_PID_LO : Nat := 12
def CMD_IODIR_PID_W : Nat := 20
def CMD_IODIR_DV : Nat := 1 <<< 33
def CMD_IODIR_DID_LO : Nat := 40
def CMD_IODIR_DID_W : Nat := 24

/-- `RISCV_IOMMU_CMD(func, op) = (func << 7) | op`. -/
def cmdKey (func op : Nat) : Nat := (func <<< 7) ||| op

def KEY_IOFENCE_C : Nat := cmdKey CMD_IOFENCE_FUNC_C CMD_IOFENCE_OPCODE
def KEY_IOTINVAL_GVMA : Nat := cmdKey CMD_IOTINVAL_FUNC_GVMA CMD_IOTINVAL_OPCODE
def KEY_IOTINVAL_VMA : Nat := cmdKey CMD_IOTINVAL_FUNC_VMA CMD_IOTINVAL_OPCODE
def KEY_IODIR_INVAL_DDT : Nat := cmdKey CMD_IODIR_FUNC_INVAL_DDT CMD_IODIR_OPCODE
def KEY_IODIR_INVAL_PDT : Nat := cmdKey CMD_IODIR_FUNC_INVAL_PDT CMD_IODIR_OPCODE

/-- `LIMIT_CACHE_CTX` from the source. -/
def LIMIT_CACHE_CTX : Nat := 128

/-! ## Device state -/

/-- `MemTxResult` outcomes of a DMA or MMIO transaction. -/
inductive MemTx where
  | ok
  | error
  | accessError
  | decodeError
deriving DecidableEq, Repr

/-- `struct RISCVIOMMUContext`: translation context.  `devid` is a 24-bit
and `process_id` a 20-bit C bitfield; truncation happens at the
assignment sites, mirrored by `mkCtxKey`. -/
structure Ctx where
  devid : Nat
  process_id : Nat
  tc : Nat
  ta : Nat
  msi_addr_mask : Nat
  msi_addr_pattern : Nat
  msiptp : Nat
deriving DecidableEq, Repr

/-- Context-structure initialisation `{ .devid = devid, .process_id =
process_id }` with the C bitfield truncation. -/
def mkCtxKey (devid process_id : Nat) : Ctx :=
  { devid := devid % 2 ^ 24, process_id := process_id % 2 ^ 20,
    tc := 0, ta := 0, msi_addr_mask := 0, msi_addr_pattern := 0, msiptp := 0 }

/-- `struct riscv_iommu_fq_record` (32 bytes: hdr, iotval, iotval2,
reserved). -/
structure FqRecord where
  hdr : Nat
  iotval : Nat
  iotval2 : Nat
deriving DecidableEq, Repr

/-- The 32-byte little-endian image of a fault record. -/
def fqRecordBits (ev : FqRecord) : Nat :=
  ev.hdr % 2 ^ 64 + (ev.iotval % 2 ^ 64) * 2 ^ 64 + (ev.iotval2 % 2 ^ 64) * 2 ^ 128

/-- `struct riscv_iommu_pq_record` (16 bytes: hdr, payload). -/
structure PqRecord where
  hdr : Nat
  payload : Nat
deriving DecidableEq, Repr

/-- The 16-byte little-endian image of a page-request record. -/
def pqRecordBits (pr : PqRecord) : Nat :=
  pr.hdr % 2 ^ 64 + (pr.payload % 2 ^ 64) * 2 ^ 64

/-- The mutable device state visible to the embedded functions: the three
register shadow arrays, the downstream DMA memory with its success

oracles, the latched queue bases/masks, the sanitized `ddtp`, the realize
configuration, the host-interrupt log and the context cache. -/
structure State where
  regs_rw : Nat → Nat
  regs_ro : Nat → Nat
  regs_wc : Nat → Nat
  mem : Nat → Nat
  dmaReadRes : Nat → Nat → MemTx
  dmaWriteRes : Nat → Nat → MemTx
  cq_mask : Nat
  cq_addr : Nat
  fq_mask : Nat
  fq_addr : Nat
  pq_mask : Nat
  pq_addr : Nat
  ddtp : Nat
  cap : Nat
  enable_msi : Bool
  notifyPresent : Bool
  irqs : List Nat
  ctx_cache : List Ctx

/-- `dma_memory_read`: read `size` bytes at `addr`; the success oracle
decides the `MemTxResult`, the value read is the little-endian content. -/
def dmaRead (s : State) (addr size : Nat) : MemTx × Nat :=
  (s.dmaReadRes addr size, ldLE s.mem addr size)

/-- `dma_memory_write`: on success, store the low `size` bytes of `v`. -/
def dmaWrite (s : State) (addr v size : Nat) : MemTx × State :=
  match s.dmaWriteRes addr size with
  | .ok => (.ok, { s with mem := stLE s.mem addr size v })
  | e => (e, s)

/-! ## Register access helpers

Modelled from the spec: `riscv_iommu_reg_get32/64`, `reg_set32/64` and
`reg_mod32` live in `riscv-iommu.h`, outside `src/`.  The spec's data
model (§3, §4.1) fixes them: reads return `rw`, raw sets store
little-endian, and `reg_mod32` atomically applies `(rw & ~clr) | set`
returning the previous value. -/

def reg_get32 (s : State) (off : Nat) : Nat := ldLE s.regs_rw off 4

def reg_get64 (s : State) (off : Nat) : Nat := ldLE s.regs_rw off 8

def reg_set32 (s : State) (off v : Nat) : State :=
  { s with regs_rw := stLE s.regs_rw off 4 v }

def reg_set64 (s : State) (off v : Nat) : State :=
  { s with regs_rw := stLE s.regs_rw off 8 v }

def reg_mod32 (s : State) (off set clr : Nat) : Nat × State :=
  let v := ldLE s.regs_rw off 4
  (v, { s with regs_rw := stLE s.regs_rw off 4 ((v &&& compl32 clr) ||| set) })

/-! ## Interrupt notification and queue producers -/

/-- `riscv_iommu_notify`: unless wire-signaled interrupts are selected or
no host callback is registered, set IPSR bit `vec` and, if it was
previously clear, deliver the interrupt on the line selected by IVEC. -/
def riscv_iommu_notify (s : State) (vec : Nat) : State :=
  let fctl := reg_get32 s REG_FCTL
  if fctl &&& FCTL_WSI ≠ 0 ∨ ¬s.notifyPresent then s
  else
    let p := reg_mod32 s REG_IPSR (1 <<< vec) 0
    let ipsr := p.1
    let s := p.2
    let ivec := reg_get32 s REG_IVEC
    if ipsr &&& (1 <<< vec) = 0 then
      { s with irqs := ((ivec >>> (vec * 4)) &&& 0xF) :: s.irqs }
    else s

/-- `riscv_iommu_fault`: append a record to the fault queue, or set
FQOF/FQMF on overflow or memory fault. -/
def riscv_iommu_fault (s : State) (ev : FqRecord) : State :=
  let ctrl := reg_get32 s REG_FQCSR
  let head := reg_get32 s REG_FQH &&& s.fq_mask
  let tail := reg_get32 s REG_FQT &&& s.fq_mask
  let next := (tail + 1) &&& s.fq_mask
  if ctrl &&& FQCSR_FQON = 0 ∨ ctrl &&& (FQCSR_FQOF ||| FQCSR_FQMF) ≠ 0 then s
  else
    let s :=
      if head = next then (reg_mod32 s REG_FQCSR FQCSR_FQOF 0).2
      else
        let addr := s.fq_addr + tail * 32
        match dmaWrite s addr (fqRecordBits ev) 32 with
        | (.ok, s) => reg_set32 s REG_FQT next
        | (_, s) => (reg_mod32 s REG_FQCSR FQCSR_FQMF 0).2
    if ctrl &&& FQCSR_FIE ≠ 0 then riscv_iommu_notify s INTR_FQ else s

/-- `riscv_iommu_pri`: append a record to the page-request queue, or set
PQOF/PQMF on overflow or memory fault. -/
def riscv_iommu_pri (s : State) (pr : PqRecord) : State :=
  let ctrl := reg_get32 s REG_PQCSR
  let head := reg_get32 s REG_PQH &&& s.pq_mask
  let tail := reg_get32 s REG_PQT &&& s.pq_mask
  let next := (tail + 1) &&& s.pq_mask
  if ctrl &&& PQCSR_PQON = 0 ∨ ctrl &&& (PQCSR_PQOF ||| PQCSR_PQMF) ≠ 0 then s
  else
    let s :=
      if head = next then (reg_mod32 s REG_PQCSR PQCSR_PQOF 0).2
      else
        let addr := s.pq_addr + tail * 16
        match dmaWrite s addr (pqRecordBits pr) 16 with
        | (.ok, s) => reg_set32 s REG_PQT next
        | (_, s) => (reg_mod32 s REG_PQCSR PQCSR_PQMF 0).2
    if ctrl &&& PQCSR_PIE ≠ 0 then riscv_iommu_notify s INTR_PQ else s

/-! ## Fault reporting -/

/-- Whether a cause code passes the `tc.DTF` fault-suppression filter
(the `switch` in `riscv_iommu_report_fault`). -/
def dtfAllowed (cause : Nat) : Bool :=
  if cause = CAUSE_DMA_DISABLED then true
  else if cause = CAUSE_DDT_LOAD_FAULT then true
  else if cause = CAUSE_DDT_INVALID then true
  else if cause = CAUSE_DDT_MISCONFIGURED then true
  else if cause = CAUSE_DDT_CORRUPTED then true
  else if cause = CAUSE_INTERNAL_DP_ERROR then true
  else if cause = CAUSE_MSI_WR_FAULT then true
  else false

/-- The fault record composed by `riscv_iommu_report_fault` (lines
239-249): cause, ttype, DID, PV=1, and the PID field only when `pv`. -/
def reportRecord (ctx : Ctx) (fault_type cause : Nat) (pv : Bool)
    (iotval iotval2 : Nat) : FqRecord :=
  let hdr := setField 0 FQ_HDR_CAUSE_LO FQ_HDR_CAUSE_W cause
  let hdr := setField hdr FQ_HDR_TTYPE_LO FQ_HDR_TTYPE_W fault_type
  let hdr := setField hdr FQ_HDR_DID_LO FQ_HDR_DID_W ctx.devid
  let hdr := setField hdr FQ_HDR_PV_LO 1 1
  let hdr := if pv then setField hdr FQ_HDR_PID_LO FQ_HDR_PID_W ctx.process_id else hdr
  { hdr := hdr, iotval := iotval, iotval2 := iotval2 }

/-- `riscv_iommu_report_fault`: unless suppressed by `tc.DTF`, compose a
fault record and push it to the fault queue. -/
def riscv_iommu_report_fault (s : State) (ctx : Ctx) (fault_type cause : Nat)
    (pv : Bool) (iotval iotval2 : Nat) : State :=
  if ctx.tc &&& DC_TC_DTF ≠ 0 ∧ ¬dtfAllowed cause then s
  else riscv_iommu_fault s (reportRecord ctx fault_type cause pv iotval iotval2)

/-! ## MSI/MRIF redirection -/

/-- `_pext_u64` loop body: collect the bits of `val` selected by `ext`
into consecutive positions starting at `rot`.  The last argument is
structural fuel: the C loop runs while `ext != 0`, halving `ext` each
iteration, so 64 iterations cover every `uint64` mask. -/
def pextGo : Nat → Nat → Nat → Nat → Nat
  | _, _, _, 0 => 0
  | val, ext, rot, fuel + 1 =>
    if ext = 0 then 0
    else if ext % 2 = 1 then
      (if val % 2 = 1 then rot else 0) |||
        pextGo (val / 2) (ext / 2) (rot * 2) fuel
    else pextGo (val / 2) (ext / 2) rot fuel

/-- `_pext_u64`: portable bit-mask extraction. -/
def pext_u64 (val ext : Nat) : Nat := pextGo val ext 1 64

/-- `riscv_iommu_msi_check`: GPA matches the MSI pattern iff the MSI page
table mode is FLAT and the page number agrees with the pattern outside
the mask. -/
def riscv_iommu_msi_check (_s : State) (ctx : Ctx) (gpa : Nat) : Bool :=
  if getField ctx.msiptp DC_MSIPTP_MODE_LO DC_MSIPTP_MODE_W ≠ DC_MSIPTP_MODE_FLAT then
    false
  else if ((gpa >>> 12) ^^^ ctx.msi_addr_pattern) &&& compl64 ctx.msi_addr_mask ≠ 0 then
    false
  else true

/-- The `err:` exit of `riscv_iommu_msi_write`: push a fault record with
ttype `UADDR_WR` and return the transaction result. -/
def msiFail (s : State) (ctx : Ctx) (res : MemTx) (cause : Nat) : MemTx × State :=
  (res, riscv_iommu_report_fault s ctx FQ_TTYPE_UADDR_WR cause
    (ctx.process_id != 0) 0 0)

/-- `riscv_iommu_msi_write`: redirect an MSI write for a given GPA,
following the matched MSI PTE in BASIC or MRIF mode. -/
def riscv_iommu_msi_write (s : State) (ctx : Ctx) (gpa data size : Nat) :
    MemTx × State :=
  if ¬riscv_iommu_msi_check s ctx gpa then
    msiFail s ctx .accessError CAUSE_MSI_LOAD_FAULT
  else
    let intn := pext_u64 (gpa >>> 12) ctx.msi_addr_mask
    if intn ≥ 256 then msiFail s ctx .accessError CAUSE_MSI_LOAD_FAULT
    else
      let addr := ppnPhys (getField ctx.msiptp DC_MSIPTP_PPN_LO DC_MSIPTP_PPN_W)
      let addr := addr ||| (intn * 16)
      match dmaRead s addr 16 with
      | (.ok, pteBits) =>
        let pte0 := pteBits % 2 ^ 64
        let pte1 := pteBits / 2 ^ 64
        if pte0 &&& MSI_PTE_V = 0 ∨ pte0 &&& MSI_PTE_C ≠ 0 then
          msiFail s ctx .accessError CAUSE_MSI_INVALID
        else
          let m := getField pte0 MSI_PTE_M_LO MSI_PTE_M_W
          if m = MSI_PTE_M_BASIC then
            let addr := ppnPhys (getField pte0 MSI_PTE_PPN_LO MSI_PTE_PPN_W)
            let addr := addr ||| (gpa &&& pageMaskHi)
            match dmaWrite s addr data size with
            | (.ok, s) => (.ok, s)
            | (res, s) => msiFail s ctx res CAUSE_MSI_WR_FAULT
          else if m ≠ MSI_PTE_M_MRIF then
            msiFail s ctx .accessError CAUSE_MSI_MISCONFIGURED
          else if data > 2047 ∨ gpa &&& 3 ≠ 0 then
            msiFail s ctx .accessError CAUSE_MSI_MISCONFIGURED
          else
            let addr := (getField pte0 MSI_PTE_MRIF_ADDR_LO MSI_PTE_MRIF_ADDR_W) <<< 9
            let addr := addr ||| ((data &&& 0x7c0) >>> 3)
            let pend := 1 <<< (data &&& 0x3f)
            match dmaRead s addr 8 with
            | (.ok, intn) =>
              let intn := intn ||| pend
              match dmaWrite s addr intn 8 with
              | (.ok, s) =>
                match dmaRead s (addr + 8) 8 with
                | (.ok, enable) =>
                  if enable &&& pend = 0 then (.ok, s)
                  else
                    let naddr := ppnPhys (getField pte1 MSI_MRIF_NPPN_LO MSI_MRIF_NPPN_W)
                    let n190 := getField pte1 MSI_MRIF_NID_LO MSI_MRIF_NID_W |||
                      (getField pte1 60 1 <<< 10)
                    match dmaWrite s naddr n190 4 with
                    | (.ok, s) => (.ok, s)
                    | (res, s) => msiFail s ctx res CAUSE_MSI_WR_FAULT
                | (res, _) => msiFail s ctx res CAUSE_MSI_LOAD_FAULT
              | (res, s) => msiFail s ctx res CAUSE_MSI_WR_FAULT
            | (res, _) => msiFail s ctx res CAUSE_MSI_LOAD_FAULT
      | (res, _) =>
        if res = .decodeError then msiFail s ctx res CAUSE_MSI_PT_CORRUPTED
        else msiFail s ctx res CAUSE_MSI_LOAD_FAULT

/-! ## Device context fetch (device/process directory tree walk) -/

/-- `riscv_iommu_validate_device_ctx`: the device-context configuration
checks. -/
def riscv_iommu_validate_device_ctx (s : State) (ctx : Ctx) : Bool :=
  if ctx.tc &&& DC_TC_EN_PRI = 0 ∧ ctx.tc &&& DC_TC_PRPR ≠ 0 then false
  else if s.cap &&& CAP_T2GPA = 0 ∧ ctx.tc &&& DC_TC_T2GPA ≠ 0 then false
  else if s.cap &&& CAP_MSI_FLAT ≠ 0 ∧
      getField ctx.msiptp DC_MSIPTP_MODE_LO DC_MSIPTP_MODE_W ≠ DC_MSIPTP_MODE_OFF ∧
      getField ctx.msiptp DC_MSIPTP_MODE_LO DC_MSIPTP_MODE_W ≠ DC_MSIPTP_MODE_FLAT then
    false
  else if ctx.tc &&& DC_TC_SBE ≠ 0 then false
  else true

/-- `riscv_iommu_validate_process_ctx`. -/
def riscv_iommu_validate_process_ctx (_s : State) (ctx : Ctx) : Bool :=
  ctx.ta &&& PC_TA_RESERVED = 0

/-- The device directory tree descent (`for (; depth-- > 0; )` in
`riscv_iommu_ctx_fetch`): returns the next-level base address or a fault
cause. -/
def ddtWalk (s : State) (devid dc_fmt : Nat) : Nat → Nat → Except Nat Nat
  | 0, addr => .ok addr
  | depth + 1, addr =>
    let split := depth * 9 + 6 + dc_fmt
    let addr := addr ||| (((devid >>> split) <<< 3) &&& pageMaskLo)
    match dmaRead s addr 8 with
    | (.ok, de) =>
      if de &&& DDTE_VALID = 0 then .error CAUSE_DDT_INVALID
      else if de &&& compl64 (DDTE_PPN ||| DDTE_VALID) ≠ 0 then
        .error CAUSE_DDT_MISCONFIGURED
      else ddtWalk s devid dc_fmt depth (ppnPhys (getField de 10 44))
    | (_, _) => .error CAUSE_DDT_LOAD_FAULT

/-- The process directory tree descent in `riscv_iommu_ctx_fetch`. -/
def pdtWalk (s : State) (procid : Nat) : Nat → Nat → Except Nat Nat
  | 0, addr => .ok addr
  | depth + 1, addr =>
    let split := depth * 9 + 8
    let addr := addr ||| (((procid >>> split) <<< 3) &&& pageMaskLo)
    match dmaRead s addr 8 with
    | (.ok, de) =>
      if de &&& PC_TA_V = 0 then .error CAUSE_PDT_INVALID
      else pdtWalk s procid depth (ppnPhys (getField de PC_FSC_PPN_LO PC_FSC_PPN_W))
    | (_, _) => .error CAUSE_PDT_LOAD_FAULT

/-- `riscv_iommu_ctx_fetch`: device directory walk populating the
translation context; returns `(0, ctx)` on success or `(cause, ctx)` on
fault (the context may be partially updated, as in the source). -/
def riscv_iommu_ctx_fetch (s : State) (ctx : Ctx) : Nat × Ctx :=
  let ddtp := s.ddtp
  let mode := getField ddtp DDTP_MODE_LO DDTP_MODE_W
  let base := ppnPhys (getField ddtp 10 44)
  let dc_fmt : Nat := if s.enable_msi then 0 else 1
  let dc_len := 64 >>> dc_fmt
  if mode = DDTP_MODE_OFF then (CAUSE_DMA_DISABLED, ctx)
  else if mode = DDTP_MODE_BARE then
    (0, { ctx with tc := DC_TC_V, ta := 0, msiptp := 0 })
  else if ¬(mode = DDTP_MODE_1LVL ∨ mode = DDTP_MODE_2LVL ∨ mode = DDTP_MODE_3LVL) then
    (CAUSE_DDT_MISCONFIGURED, ctx)
  else
    let depth := mode - DDTP_MODE_1LVL
    if ctx.devid ≥ 1 <<< (depth * 9 + 6 + (if dc_fmt ≠ 0 ∧ depth ≠ 2 then 1 else 0)) then
      (CAUSE_TTYPE_BLOCKED, ctx)
    else
      match ddtWalk s ctx.devid dc_fmt depth base with
      | .error cause => (cause, ctx)
      | .ok leafBase =>
        let addr := leafBase ||| ((ctx.devid * dc_len) &&& pageMaskLo)
        match s.dmaReadRes addr dc_len with
        | .ok =>
          let ctx := { ctx with
            tc := ldLE s.mem addr 8,
            ta := ldLE s.mem (addr + 16) 8,
            msiptp := if dc_fmt = 0 then ldLE s.mem (addr + 32) 8 else 0,
            msi_addr_mask := if dc_fmt = 0 then ldLE s.mem (addr + 40) 8 else 0,
            msi_addr_pattern := if dc_fmt = 0 then ldLE s.mem (addr + 48) 8 else 0 }
          if ctx.tc &&& DC_TC_V = 0 then (CAUSE_DDT_INVALID, ctx)
          else if ¬riscv_iommu_validate_device_ctx s ctx then
            (CAUSE_DDT_MISCONFIGURED, ctx)
          else if ctx.tc &&& DC_TC_PDTV = 0 then
            if ctx.process_id ≠ 0 then (CAUSE_TTYPE_BLOCKED, ctx) else (0, ctx)
          else if mode > DC_FSC_PDTP_MODE_PD20 then (CAUSE_PDT_MISCONFIGURED, ctx)
          else
            match pdtWalk s ctx.process_id (mode - DC_FSC_PDTP_MODE_PD8) addr with
            | .error cause => (cause, ctx)
            | .ok pdtBase =>
              let addr := pdtBase ||| ((ctx.process_id <<< 4) &&& pageMaskLo)
              match s.dmaReadRes addr 16 with
              | .ok =>
                let ctx := { ctx with ta := ldLE s.mem addr 8 }
                if ctx.ta &&& PC_TA_V = 0 then (CAUSE_PDT_INVALID, ctx)
                else if ¬riscv_iommu_validate_process_ctx s ctx then
                  (CAUSE_PDT_MISCONFIGURED, ctx)
                else (0, ctx)
              | _ => (CAUSE_PDT_LOAD_FAULT, ctx)
        | _ => (CAUSE_DDT_LOAD_FAULT, ctx)

/-! ## Context cache -/

/-- `__ctx_equal` on the cache key. -/
def ctxKeyEq (key c : Ctx) : Bool :=
  c.devid == key.devid && c.process_id == key.process_id

/-- `g_hash_table_lookup` over the context cache. -/
def ctxLookup (cache : List Ctx) (key : Ctx) : Option Ctx :=
  cache.find? (ctxKeyEq key)

/-- `g_hash_table_add`: insert, replacing an entry with an equal key. -/
def cacheAdd (cache : List Ctx) (ctx : Ctx) : List Ctx :=
  ctx :: cache.filter (fun c => ¬ctxKeyEq ctx c)

/-- `__ctx_inval_devid`: clear `tc.V` on valid entries matching the
device id. -/
def ctxInvalDevid (key c : Ctx) : Ctx :=
  if c.tc &&& DC_TC_V ≠ 0 ∧ c.devid = key.devid then
    { c with tc := c.tc &&& compl64 DC_TC_V }
  else c

/-- `__ctx_inval_devid_procid`. -/
def ctxInvalDevidProcid (key c : Ctx) : Ctx :=
  if c.tc &&& DC_TC_V ≠ 0 ∧ c.devid = key.devid ∧ c.process_id = key.process_id then
    { c with tc := c.tc &&& compl64 DC_TC_V }
  else c

/-- `__ctx_inval_all`. -/
def ctxInvalAll (c : Ctx) : Ctx :=
  if c.tc &&& DC_TC_V ≠ 0 then { c with tc := c.tc &&& compl64 DC_TC_V } else c

/-- `riscv_iommu_ctx_inval`: apply an invalidation function to every
cached context. -/
def riscv_iommu_ctx_inval (s : State) (f : Ctx → Ctx) : State :=
  { s with ctx_cache := s.ctx_cache.map f }

/-- Result of a context lookup: the context (if any), the updated state,
and whether a directory walk (`riscv_iommu_ctx_fetch`) was performed. -/
structure CtxResult where
  ctx : Option Ctx
  state : State
  walked : Bool

/-- The allocate-and-fetch path of `riscv_iommu_ctx` (cache miss or
invalid cached entry). -/
def riscv_iommu_ctx_alloc (s : State) (devid process_id : Nat) : CtxResult :=
  let r := riscv_iommu_ctx_fetch s (mkCtxKey devid process_id)
  let fault := r.1
  let ctx := r.2
  if fault = 0 then
    let cache := if s.ctx_cache.length ≥ LIMIT_CACHE_CTX then [] else s.ctx_cache
    { ctx := some ctx, state := { s with ctx_cache := cacheAdd cache ctx },
      walked := true }
  else
    { ctx := none,
      state := riscv_iommu_report_fault s ctx FQ_TTYPE_UADDR_RD fault
        (process_id != 0) 0 0,
      walked := true }

/-- `riscv_iommu_ctx`: find or allocate the translation context for
`{device_id, process_id}`.  A cached context with `tc.V = 0` is treated
as absent. -/
def riscv_iommu_ctx (s : State) (devid process_id : Nat) : CtxResult :=
  match ctxLookup s.ctx_cache (mkCtxKey devid process_id) with
  | some c =>
    if c.tc &&& DC_TC_V ≠ 0 then { ctx := some c, state := s, walked := false }
    else riscv_iommu_ctx_alloc s devid process_id
  | none => riscv_iommu_ctx_alloc s devid process_id

/-! ## DDTP processor -/

/-- The allowed `DDTP.MODE` transition check in
`riscv_iommu_process_ddtp`. -/
def ddtpTransitionOk (old_mode new_mode : Nat) : Bool :=
  if new_mode = old_mode ∨ new_mode = DDTP_MODE_OFF ∨ new_mode = DDTP_MODE_BARE then
    true
  else if new_mode = DDTP_MODE_1LVL ∨ new_mode = DDTP_MODE_2LVL ∨
      new_mode = DDTP_MODE_3LVL then
    decide (old_mode = DDTP_MODE_OFF ∨ old_mode = DDTP_MODE_BARE)
  else false

/-- `riscv_iommu_process_ddtp`: validate the written mode transition and
store either the sanitized `{PPN, MODE}` value or the prior one. -/
def riscv_iommu_process_ddtp (s : State) : State :=
  let old_ddtp := s.ddtp
  let written := reg_get64 s REG_DDTP
  let new_mode := getField written DDTP_MODE_LO DDTP_MODE_W
  let old_mode := getField old_ddtp DDTP_MODE_LO DDTP_MODE_W
  let new_ddtp :=
    if ddtpTransitionOk old_mode new_mode then
      setField (written &&& DDTP_PPN) DDTP_MODE_LO DDTP_MODE_W new_mode
    else old_ddtp
  reg_set64 { s with ddtp := new_ddtp } REG_DDTP new_ddtp

/-! ## Queue control processors -/

/-- `riscv_iommu_process_cq_control`. -/
def riscv_iommu_process_cq_control (s : State) : State :=
  let ctrl := reg_get32 s REG_CQCSR
  let enable := ctrl &&& CQCSR_CQEN ≠ 0
  let active := ctrl &&& CQCSR_CQON ≠ 0
  if enable ∧ ¬active then
    let base := reg_get64 s REG_CQB
    let cq_mask := (2 <<< getField base QB_LOG2SZ_LO QB_LOG2SZ_W) - 1
    let cq_addr := ppnPhys (getField base QB_PPN_LO QB_PPN_W)
    let s := { s with cq_mask := cq_mask, cq_addr := cq_addr }
    let s := { s with regs_ro := stLE s.regs_ro REG_CQT 4 (compl32 cq_mask) }
    let s := { s with regs_rw := stLE s.regs_rw REG_CQH 4 0 }
    let s := { s with regs_rw := stLE s.regs_rw REG_CQT 4 0 }
    (reg_mod32 s REG_CQCSR CQCSR_CQON
      (CQCSR_BUSY ||| CQCSR_CQMF ||| CQCSR_CMD_ILL ||| CQCSR_CMD_TO |||
        CQCSR_FENCE_W_IP)).2
  else if ¬enable ∧ active then
    let s := { s with regs_ro := stLE s.regs_ro REG_CQT 4 (compl32 0) }
    (reg_mod32 s REG_CQCSR 0 (CQCSR_BUSY ||| CQCSR_CQON)).2
  else
    (reg_mod32 s REG_CQCSR 0 CQCSR_BUSY).2

/-- `riscv_iommu_process_fq_control`. -/
def riscv_iommu_process_fq_control (s : State) : State :=
  let ctrl := reg_get32 s REG_FQCSR
  let enable := ctrl &&& FQCSR_FQEN ≠ 0
  let active := ctrl &&& FQCSR_FQON ≠ 0
  if enable ∧ ¬active then
    let base := reg_get64 s REG_FQB
    let fq_mask := (2 <<< getField base QB_LOG2SZ_LO QB_LOG2SZ_W) - 1
    let fq_addr := ppnPhys (getField base QB_PPN_LO QB_PPN_W)
    let s := { s with fq_mask := fq_mask, fq_addr := fq_addr }
    let s := { s with regs_ro := stLE s.regs_ro REG_FQH 4 (compl32 fq_mask) }
    let s := { s with regs_rw := stLE s.regs_rw REG_FQH 4 0 }
    let s := { s with regs_rw := stLE s.regs_rw REG_FQT 4 0 }
    (reg_mod32 s REG_FQCSR FQCSR_FQON
      (FQCSR_BUSY ||| FQCSR_FQMF ||| FQCSR_FQOF)).2
  else if ¬enable ∧ active then
    let s := { s with regs_ro := stLE s.regs_ro REG_FQH 4 (compl32 0) }
    (reg_mod32 s REG_FQCSR 0 (FQCSR_BUSY ||| FQCSR_FQON)).2
  else
    (reg_mod32 s REG_FQCSR 0 FQCSR_BUSY).2

/-- `riscv_iommu_process_pq_control`. -/
def riscv_iommu_process_pq_control (s : State) : State :=
  let ctrl := reg_get32 s REG_PQCSR
  let enable := ctrl &&& PQCSR_PQEN ≠ 0
  let active := ctrl &&& PQCSR_PQON ≠ 0
  if enable ∧ ¬active then
    let base := reg_get64 s REG_PQB
    let pq_mask := (2 <<< getField base QB_LOG2SZ_LO QB_LOG2SZ_W) - 1
    let pq_addr := ppnPhys (getField base QB_PPN_LO QB_PPN_W)
    let s := { s with pq_mask := pq_mask, pq_addr := pq_addr }
    let s := { s with regs_ro := stLE s.regs_ro REG_PQH 4 (compl32 pq_mask) }
    let s := { s with regs_rw := stLE s.regs_rw REG_PQH 4 0 }
    let s := { s with regs_rw := stLE s.regs_rw REG_PQT 4 0 }
    (reg_mod32 s REG_PQCSR PQCSR_PQON
      (PQCSR_BUSY ||| PQCSR_PQMF ||| PQCSR_PQOF)).2
  else if ¬enable ∧ active then
    let s := { s with regs_ro := stLE s.regs_ro REG_PQH 4 (compl32 0) }
    (reg_mod32 s REG_PQCSR 0 (PQCSR_BUSY ||| PQCSR_PQON)).2
  else
    (reg_mod32 s REG_PQCSR 0 PQCSR_BUSY).2

/-! ## Command queue processing -/

/-- `riscv_iommu_iofence`. -/
def riscv_iommu_iofence (s : State) (notif : Bool) (addr data : Nat) :
    MemTx × State :=
  if ¬notif then (.ok, s)
  else dmaWrite s addr data 4

/-- The `fault:` exit of `riscv_iommu_process_cq_tail`. -/
def cqFaultExit (s : State) (ctrl : Nat) : State :=
  if ctrl &&& CQCSR_CIE ≠ 0 then riscv_iommu_notify s INTR_CQ else s

/-- The `while (tail != head)` loop of `riscv_iommu_process_cq_tail`.
The final `Nat` is fuel; `riscv_iommu_process_cq_tail` passes
`cq_mask + 2`, which bounds the iteration count whenever `cq_mask + 1` is
a power of two (always the case when the queue was enabled through
`riscv_iommu_process_cq_control`), since each iteration either exits or
advances `head` within `[0, cq_mask]`. -/
def processCqLoop : State → Nat → Nat → Nat → Nat → State
  | s, _, _, _, 0 => s
  | s, ctrl, tail, head, fuel + 1 =>
    if tail = head then s
    else
      let addr := s.cq_addr + head * 16
      match dmaRead s addr 16 with
      | (.ok, v) =>
        let dword0 := v % 2 ^ 64
        let dword1 := v / 2 ^ 64
        let key := getField dword0 CMD_OPFUNC_LO CMD_OPFUNC_W
        if key = KEY_IOFENCE_C then
          match riscv_iommu_iofence s (dword0 &&& CMD_IOFENCE_AV ≠ 0) dword1
              (getField dword0 CMD_IOFENCE_DATA_LO CMD_IOFENCE_DATA_W) with
          | (.ok, s) =>
            let head := (head + 1) &&& s.cq_mask
            processCqLoop (reg_set32 s REG_CQH head) ctrl tail head fuel
          | (_, s) => cqFaultExit (reg_mod32 s REG_CQCSR CQCSR_CQMF 0).2 ctrl
        else if key = KEY_IOTINVAL_GVMA then
          if dword0 &&& CMD_IOTINVAL_PSCV ≠ 0 then
            cqFaultExit (reg_mod32 s REG_CQCSR CQCSR_CMD_ILL 0).2 ctrl
          else
            let head := (head + 1) &&& s.cq_mask
            processCqLoop (reg_set32 s REG_CQH head) ctrl tail head fuel
        else if key = KEY_IOTINVAL_VMA then
          let head := (head + 1) &&& s.cq_mask
          processCqLoop (reg_set32 s REG_CQH head) ctrl tail head fuel
        else if key = KEY_IODIR_INVAL_DDT then
          let arg := mkCtxKey (getField dword0 CMD_IODIR_DID_LO CMD_IODIR_DID_W) 0
          let s :=
            if dword0 &&& CMD_IODIR_DV = 0 then riscv_iommu_ctx_inval s ctxInvalAll
            else riscv_iommu_ctx_inval s (ctxInvalDevid arg)
          let head := (head + 1) &&& s.cq_mask
          processCqLoop (reg_set32 s REG_CQH head) ctrl tail head fuel
        else if key = KEY_IODIR_INVAL_PDT then
          if dword0 &&& CMD_IODIR_DV = 0 then
            cqFaultExit (reg_mod32 s REG_CQCSR CQCSR_CMD_ILL 0).2 ctrl
          else
            let arg := mkCtxKey (getField dword0 CMD_IODIR_DID_LO CMD_IODIR_DID_W)
              (getField dword0 CMD_IODIR_PID_LO CMD_IODIR_PID_W)
            let s := riscv_iommu_ctx_inval s (ctxInvalDevidProcid arg)
            let head := (head + 1) &&& s.cq_mask
            processCqLoop (reg_set32 s REG_CQH head) ctrl tail head fuel
        else
          cqFaultExit (reg_mod32 s REG_CQCSR CQCSR_CMD_ILL 0).2 ctrl
      | (_, _) => cqFaultExit (reg_mod32 s REG_CQCSR CQCSR_CQMF 0).2 ctrl

/-- `riscv_iommu_process_cq_tail`: consume commands between the masked
head and tail. -/
def riscv_iommu_process_cq_tail (s : State) : State :=
  let ctrl := reg_get32 s REG_CQCSR
  let tail := reg_get32 s REG_CQT &&& s.cq_mask
  let head := reg_get32 s REG_CQH &&& s.cq_mask
  if ctrl &&& CQCSR_CQON = 0 ∨ ctrl &&& (CQCSR_CMD_ILL ||| CQCSR_CQMF) ≠ 0 then s
  else processCqLoop s ctrl tail head (s.cq_mask + 2)

/-! ## Interrupt pending status -/

/-- `riscv_iommu_update_ipsr`: re-derive each IPSR bit of the apparent
write `data` from the corresponding queue CSR. -/
def riscv_iommu_update_ipsr (s : State) (data : Nat) : State :=
  let cip : Nat × Nat :=
    if data &&& IPSR_CIP ≠ 0 then
      let cqcsr := reg_get32 s REG_CQCSR
      if cqcsr &&& CQCSR_CIE ≠ 0 ∧
          (cqcsr &&& CQCSR_FENCE_W_IP ≠ 0 ∨ cqcsr &&& CQCSR_CMD_ILL ≠ 0 ∨
           cqcsr &&& CQCSR_CMD_TO ≠ 0 ∨ cqcsr &&& CQCSR_CQMF ≠ 0) then
        (IPSR_CIP, 0)
      else (0, IPSR_CIP)
    else (0, IPSR_CIP)
  let fip : Nat × Nat :=
    if data &&& IPSR_FIP ≠ 0 then
      let fqcsr := reg_get32 s REG_FQCSR
      if fqcsr &&& FQCSR_FIE ≠ 0 ∧
          (fqcsr &&& FQCSR_FQOF ≠ 0 ∨ fqcsr &&& FQCSR_FQMF ≠ 0) then
        (IPSR_FIP, 0)
      else (0, IPSR_FIP)
    else (0, IPSR_FIP)
  let pip : Nat × Nat :=
    if data &&& IPSR_PIP ≠ 0 then
      let pqcsr := reg_get32 s REG_PQCSR
      if pqcsr &&& PQCSR_PIE ≠ 0 ∧
          (pqcsr &&& PQCSR_PQOF ≠ 0 ∨ pqcsr &&& PQCSR_PQMF ≠ 0) then
        (IPSR_PIP, 0)
      else (0, IPSR_PIP)
    else (0, IPSR_PIP)
  (reg_mod32 s REG_IPSR (cip.1 ||| fip.1 ||| pip.1) (cip.2 ||| fip.2 ||| pip.2)).2

/-! ## MMIO register file access -/

/-- Masked register update over a `w`-bit word:
`((rw & ro) | (v & ~ro)) & ~(v & wc)`. -/
def maskedUpdate (rw ro wc v w : Nat) : Nat :=
  let notRo := bmask w ^^^ (ro &&& bmask w)
  let notVwc := bmask w ^^^ ((v &&& wc) &&& bmask w)
  ((rw &&& ro) ||| (v &&& notRo)) &&& notVwc

/-- `riscv_iommu_mmio_write`: alignment and range checks, the IPSR
special path, the generic rw/ro/wc masked update, the BUSY flag, and the
dispatched process function. -/
def riscv_iommu_mmio_write (s : State) (addr data size : Nat) : MemTx × State :=
  if addr &&& (size - 1) ≠ 0 then (.error, s)
  else if addr + size > REG_MSI_CONFIG then (.accessError, s)
  else
    let regb := addr &&& compl64 3
    if regb = REG_IPSR then
      let val :=
        if size = 4 then
          maskedUpdate (ldLE s.regs_rw addr 4) (ldLE s.regs_ro addr 4)
            (ldLE s.regs_wc addr 4) data 32
        else if size = 8 then
          maskedUpdate (ldLE s.regs_rw addr 8) (ldLE s.regs_ro addr 8)
            (ldLE s.regs_wc addr 8) data 64
        else 0
      (.ok, riscv_iommu_update_ipsr s val)
    else
      let dispatch : Option (State → State) × Nat × Nat :=
        if regb = REG_DDTP ∨ regb = REG_DDTP + 4 then
          (some riscv_iommu_process_ddtp, DDTP_BUSY, REG_DDTP)
        else if regb = REG_CQT then (some riscv_iommu_process_cq_tail, 0, regb)
        else if regb = REG_CQCSR then
          (some riscv_iommu_process_cq_control, CQCSR_BUSY, regb)
        else if regb = REG_FQCSR then
          (some riscv_iommu_process_fq_control, FQCSR_BUSY, regb)
        else if regb = REG_PQCSR then
          (some riscv_iommu_process_pq_control, PQCSR_BUSY, regb)
        else (none, 0, regb)
      let newv := maskedUpdate (ldLE s.regs_rw addr size) (ldLE s.regs_ro addr size)
        (ldLE s.regs_wc addr size) data (8 * size)
      let s := { s with regs_rw := stLE s.regs_rw addr size newv }
      let s :=
        if dispatch.2.1 ≠ 0 then
          let rwb := ldLE s.regs_rw dispatch.2.2 4
          { s with regs_rw := stLE s.regs_rw dispatch.2.2 4 (rwb ||| dispatch.2.1) }
        else s
      match dispatch.1 with
      | some f => (.ok, f s)
      | none => (.ok, s)

/-- `riscv_iommu_mmio_read`: aligned in-range reads return the `rw`
bytes. -/
def riscv_iommu_mmio_read (s : State) (addr size : Nat) : MemTx × Nat :=
  if addr &&& (size - 1) ≠ 0 then (.error, 0)
  else if addr + size > REG_MSI_CONFIG then (.accessError, 0)
  else if size = 1 ∨ size = 2 ∨ size = 4 ∨ size = 8 then
    (.ok, ldLE s.regs_rw addr size)
  else (.error, 0)

/-! ## Generic bit-field lemmas -/

theorem shiftLeft_one_eq (k : Nat) : 1 <<< k = 2 ^ k := by
  simp [Nat.shiftLeft_eq]

theorem testBit_bmask (w i : Nat) : (bmask w).testBit i = decide (i < w) := by
  simp [bmask, Nat.testBit_two_pow_sub_one]

theorem testBit_land_bmask (x w i : Nat) :
    (x &&& bmask w).testBit i = (x.testBit i && decide (i < w)) := by
  simp [Nat.testBit_and, testBit_bmask]

theorem testBit_land_bmask_ge (x w i : Nat) (h : w ≤ i) :
    (x &&& bmask w).testBit i = false := by
  rw [testBit_land_bmask]
  have hw : ¬ i < w := Nat.not_lt.mpr h
  simp [hw]

theorem land_bmask_lt (x w : Nat) : x &&& bmask w < 2 ^ w := by
  have : x &&& bmask w = x % 2 ^ w := by
    simp [bmask, Nat.and_pow_two_sub_one_eq_mod]
  rw [this]
  exact Nat.mod_lt _ (Nat.pos_pow_of_pos _ (by norm_num))

theorem testBit_compl64 (x i : Nat) :
    (compl64 x).testBit i = (decide (i < 64) && !x.testBit i) := by
  simp only [compl64, Nat.testBit_xor, testBit_bmask, testBit_land_bmask]
  by_cases h : i < 64 <;> simp [h]

theorem testBit_compl32 (x i : Nat) :
    (compl32 x).testBit i = (decide (i < 32) && !x.testBit i) := by
  simp only [compl32, Nat.testBit_xor, testBit_bmask, testBit_land_bmask]
  by_cases h : i < 32 <;> simp [h]

theorem testBit_fieldMask (lo w i : Nat) :
    (fieldMask lo w).testBit i = (decide (lo ≤ i) && decide (i < lo + w)) := by
  rw [fieldMask, Nat.testBit_shiftLeft, testBit_bmask]
  rcases Nat.lt_or_ge i lo with hlt | hge
  · have h1 : ¬ lo ≤ i := by omega
    have h2 : ¬ i ≥ lo := by omega
    simp [h1, h2]
  · have h1 : lo ≤ i := hge
    simp [h1, hge]
    omega

theorem testBit_setField_outside (v lo w x i : Nat) (h64 : i < 64)
    (h : i < lo ∨ lo + w ≤ i) : (setField v lo w x).testBit i = v.testBit i := by
  have hm : (fieldMask lo w).testBit i = false := by
    rw [testBit_fieldMask]
    rcases h with h | h <;> simp <;> omega
  have hs : ((x &&& bmask w) <<< lo).testBit i = false := by
    rcases h with h | h
    · rw [Nat.testBit_shiftLeft]
      simp
      omega
    · have hge : i ≥ lo := by omega
      have hb : (x &&& bmask w).testBit (i - lo) = false :=
        testBit_land_bmask_ge _ _ _ (by omega)
      rw [Nat.testBit_shiftLeft, hb]
      simp
  simp [setField, Nat.testBit_or, Nat.testBit_and, testBit_compl64, hm, hs, h64]

theorem testBit_setField_inside (v lo w x i : Nat) (hlo : lo ≤ i)
    (hhi : i < lo + w) : (setField v lo w x).testBit i = x.testBit (i - lo) := by
  have hm : (fieldMask lo w).testBit i = true := by
    rw [testBit_fieldMask]
    simp [hlo]
    omega
  have hs : ((x &&& bmask w) <<< lo).testBit i = x.testBit (i - lo) := by
    rw [Nat.testBit_shiftLeft, testBit_land_bmask]
    have hge : i ≥ lo := hlo
    have hw : i - lo < w := by omega
    simp [hge, hw]
  simp [setField, Nat.testBit_or, Nat.testBit_and, testBit_compl64, hm, hs]

theorem testBit_getField (v lo w j : Nat) :
    (getField v lo w).testBit j = (v.testBit (lo + j) && decide (j < w)) := by
  rw [getField, testBit_land_bmask, Nat.testBit_shiftRight]

theorem getField_lt (v lo w : Nat) : getField v lo w < 2 ^ w :=
  land_bmask_lt _ _

/-- A value masked by a single-bit constant is nonzero iff the bit is
set. -/
theorem land_bit_ne_zero_iff (x k : Nat) :
    x &&& (1 <<< k) ≠ 0 ↔ x.testBit k = true := by
  rw [shiftLeft_one_eq]
  constructor
  · intro h
    obtain ⟨i, hb⟩ := Nat.ne_zero_implies_bit_true h
    rw [Nat.testBit_and, Nat.testBit_two_pow] at hb
    rcases Bool.and_eq_true_iff.mp hb with ⟨hx, hk⟩
    have : k = i := by simpa using hk
    subst this
    exact hx
  · intro h hzero
    have : (x &&& 2 ^ k).testBit k = true := by
      rw [Nat.testBit_and, h, Nat.testBit_two_pow]
      simp
    rw [hzero] at this
    simp at this

theorem land_bit_eq_zero_iff (x k : Nat) :
    x &&& (1 <<< k) = 0 ↔ x.testBit k = false := by
  constructor
  · intro h
    cases hx : x.testBit k
    · rfl
    · exact absurd h ((land_bit_ne_zero_iff x k).mpr hx)
  · intro h
    by_contra hz
    have := (land_bit_ne_zero_iff x k).mp hz
    rw [h] at this
    exact Bool.noConfusion this

/-- Little-endian loads are bounded by the width. -/
theorem ldLE_lt (f : Nat → Nat) (addr : Nat) :
    ∀ n, ldLE f addr n < 256 ^ n := by
  intro n
  induction n generalizing addr with
  | zero => simp [ldLE]
  | succ n ih =>
    have h1 : f addr % 256 < 256 := Nat.mod_lt _ (by norm_num)
    have h2 : ldLE f (addr + 1) n < 256 ^ n := ih (addr + 1)
    have : (256 : Nat) ^ (n + 1) = 256 * 256 ^ n := by rw [pow_succ, Nat.mul_comm]
    rw [ldLE, this]
    omega

/-- Read-back of a stored 32-bit value. -/
theorem ldLE_stLE4 (f : Nat → Nat) (addr v : Nat) (h : v < 2 ^ 32) :
    ldLE (stLE f addr 4 v) addr 4 = v := by
  rw [ldLE_stLE]
  exact Nat.mod_eq_of_lt (by norm_num at h ⊢; omega)

/-- Read-back of a stored 64-bit value. -/
theorem ldLE_stLE8 (f : Nat → Nat) (addr v : Nat) (h : v < 2 ^ 64) :
    ldLE (stLE f addr 8 v) addr 8 = v := by
  rw [ldLE_stLE]
  exact Nat.mod_eq_of_lt (by norm_num at h ⊢; omega)

/-! ## State preservation lemmas -/

theorem notify_mem (s : State) (vec : Nat) :
    (riscv_iommu_notify s vec).mem = s.mem := by
  unfold riscv_iommu_notify
  dsimp only
  split
  · rfl
  · split <;> rfl

theorem notify_fq_state (s : State) (vec : Nat) :
    (riscv_iommu_notify s vec).fq_mask = s.fq_mask ∧
    (riscv_iommu_notify s vec).fq_addr = s.fq_addr := by
  unfold riscv_iommu_notify
  dsimp only
  split
  · exact ⟨rfl, rfl⟩
  · split <;> exact ⟨rfl, rfl⟩

/-- `riscv_iommu_notify` only writes the IPSR register word. -/
theorem notify_regs_disjoint (s : State) (vec off n : Nat)
    (h : off + n ≤ REG_IPSR ∨ REG_IPSR + 4 ≤ off) :
    ldLE (riscv_iommu_notify s vec).regs_rw off n = ldLE s.regs_rw off n := by
  unfold riscv_iommu_notify
  dsimp only
  split
  · rfl
  · split
    · exact ldLE_stLE_disjoint _ _ _ _ _ _ h
    · exact ldLE_stLE_disjoint _ _ _ _ _ _ h

theorem pow256_4 : (256 : Nat) ^ 4 = 2 ^ 32 := by norm_num

theorem ldLE4_lt (f : Nat → Nat) (addr : Nat) : ldLE f addr 4 < 2 ^ 32 :=
  pow256_4 ▸ ldLE_lt f addr 4

theorem lor_bit_test (x k : Nat) : (x ||| (1 <<< k)) &&& (1 <<< k) ≠ 0 := by
  rw [land_bit_ne_zero_iff, Nat.testBit_or, shiftLeft_one_eq,
    Nat.testBit_two_pow_self]
  simp

/-- Read-back of `reg_mod32` at the same register. -/
theorem reg_get32_mod32_self (s : State) (off set clr : Nat) (hset : set < 2 ^ 32) :
    reg_get32 (reg_mod32 s off set clr).2 off =
      ((reg_get32 s off &&& compl32 clr) ||| set) := by
  unfold reg_get32 reg_mod32
  dsimp only
  apply ldLE_stLE4
  have h1 : ldLE s.regs_rw off 4 &&& compl32 clr < 2 ^ 32 :=
    Nat.lt_of_le_of_lt Nat.and_le_left (ldLE4_lt _ _)
  exact Nat.or_lt_two_pow h1 hset

/-- `reg_mod32` does not affect other registers. -/
theorem reg_get32_mod32_other (s : State) (off set clr off2 n : Nat)
    (h : off2 + n ≤ off ∨ off + 4 ≤ off2) :
    ldLE (reg_mod32 s off set clr).2.regs_rw off2 n = ldLE s.regs_rw off2 n := by
  unfold reg_mod32
  dsimp only
  exact ldLE_stLE_disjoint _ _ _ _ _ _ h

/-- Read-back of `reg_set32` at the same register. -/
theorem reg_get32_set32_self (s : State) (off v : Nat) (hv : v < 2 ^ 32) :
    reg_get32 (reg_set32 s off v) off = v := by
  unfold reg_get32 reg_set32
  dsimp only
  exact ldLE_stLE4 _ _ _ hv

/-- `reg_set32` does not affect other registers. -/
theorem reg_get32_set32_other (s : State) (off v off2 n : Nat)
    (h : off2 + n ≤ off ∨ off + 4 ≤ off2) :
    ldLE (reg_set32 s off v).regs_rw off2 n = ldLE s.regs_rw off2 n := by
  unfold reg_set32
  dsimp only
  exact ldLE_stLE_disjoint _ _ _ _ _ _ h

/-- `riscv_iommu_notify` changes nothing outside the IPSR word and the
interrupt log. -/
theorem notify_skeleton (s : State) (vec : Nat) :
    (riscv_iommu_notify s vec).mem = s.mem ∧
    (riscv_iommu_notify s vec).fq_mask = s.fq_mask ∧
    (riscv_iommu_notify s vec).fq_addr = s.fq_addr ∧
    (riscv_iommu_notify s vec).pq_mask = s.pq_mask ∧
    (riscv_iommu_notify s vec).pq_addr = s.pq_addr ∧
    (riscv_iommu_notify s vec).cq_mask = s.cq_mask ∧
    (riscv_iommu_notify s vec).cq_addr = s.cq_addr ∧
    (riscv_iommu_notify s vec).dmaWriteRes = s.dmaWriteRes ∧
    (riscv_iommu_notify s vec).dmaReadRes = s.dmaReadRes ∧
    (riscv_iommu_notify s vec).ctx_cache = s.ctx_cache ∧
    (riscv_iommu_notify s vec).notifyPresent = s.notifyPresent := by
  unfold riscv_iommu_notify
  dsimp only
  split
  · exact ⟨rfl, rfl, rfl, rfl, rfl, rfl, rfl, rfl, rfl, rfl, rfl⟩
  · split <;> exact ⟨rfl, rfl, rfl, rfl, rfl, rfl, rfl, rfl, rfl, rfl, rfl⟩

theorem land_lor_ne_zero_left (x a b : Nat) (h : x &&& a ≠ 0) :
    x &&& (a ||| b) ≠ 0 := by
  rw [Nat.and_or_distrib_left]
  intro h0
  obtain ⟨i, hi⟩ := Nat.ne_zero_implies_bit_true h
  have hb : ((x &&& a) ||| (x &&& b)).testBit i = true := by
    rw [Nat.testBit_or, hi]
    simp
  rw [h0] at hb
  simp at hb

/-! ## Fault queue producer characterization -/

/-- A fault push is dropped silently when the queue is not on or has a
sticky error. -/
theorem fault_inactive (s : State) (ev : FqRecord)
    (hg : reg_get32 s REG_FQCSR &&& FQCSR_FQON = 0 ∨
      reg_get32 s REG_FQCSR &&& (FQCSR_FQOF ||| FQCSR_FQMF) ≠ 0) :
    riscv_iommu_fault s ev = s := by
  unfold riscv_iommu_fault
  dsimp only
  rw [if_pos hg]

/-- A fault push on a full ring sets FQOF, stores nothing and leaves the
tail in place. -/
theorem fault_overflow (s : State) (ev : FqRecord)
    (hOn : reg_get32 s REG_FQCSR &&& FQCSR_FQON ≠ 0)
    (hErr : reg_get32 s REG_FQCSR &&& (FQCSR_FQOF ||| FQCSR_FQMF) = 0)
    (hFull : reg_get32 s REG_FQH &&& s.fq_mask =
      ((reg_get32 s REG_FQT &&& s.fq_mask) + 1) &&& s.fq_mask) :
    (riscv_iommu_fault s ev).mem = s.mem ∧
    reg_get32 (riscv_iommu_fault s ev) REG_FQT = reg_get32 s REG_FQT ∧
    reg_get32 (riscv_iommu_fault s ev) REG_FQCSR &&& FQCSR_FQOF ≠ 0 := by
  unfold riscv_iommu_fault
  dsimp only
  have hg : ¬(reg_get32 s REG_FQCSR &&& FQCSR_FQON = 0 ∨
      reg_get32 s REG_FQCSR &&& (FQCSR_FQOF ||| FQCSR_FQMF) ≠ 0) := by
    push_neg
    exact ⟨hOn, hErr⟩
  rw [if_neg hg, if_pos hFull]
  set s1 := (reg_mod32 s REG_FQCSR FQCSR_FQOF 0).2 with hs1
  have hmem1 : s1.mem = s.mem := rfl
  have hfqt1 : reg_get32 s1 REG_FQT = reg_get32 s REG_FQT :=
    reg_get32_mod32_other s REG_FQCSR FQCSR_FQOF 0 REG_FQT 4 (by norm_num [REG_FQT, REG_FQCSR])
  have hof1 : reg_get32 s1 REG_FQCSR &&& FQCSR_FQOF ≠ 0 := by
    rw [hs1, reg_get32_mod32_self s REG_FQCSR FQCSR_FQOF 0 (by decide)]
    exact lor_bit_test _ 9
  split
  · refine ⟨by rw [notify_mem, hmem1], ?_, ?_⟩
    · rw [show reg_get32 (riscv_iommu_notify s1 INTR_FQ) REG_FQT =
          ldLE (riscv_iommu_notify s1 INTR_FQ).regs_rw REG_FQT 4 from rfl]
      rw [notify_regs_disjoint s1 INTR_FQ REG_FQT 4 (by norm_num [REG_FQT, REG_IPSR])]
      exact hfqt1
    · rw [show reg_get32 (riscv_iommu_notify s1 INTR_FQ) REG_FQCSR =
          ldLE (riscv_iommu_notify s1 INTR_FQ).regs_rw REG_FQCSR 4 from rfl]
      rw [notify_regs_disjoint s1 INTR_FQ REG_FQCSR 4 (by norm_num [REG_FQCSR, REG_IPSR])]
      exact hof1
  · exact ⟨hmem1, hfqt1, hof1⟩

/-- A fault push on an active non-full ring with successful DMA stores
the 32-byte record at the masked tail slot and advances the tail. -/
theorem fault_push (s : State) (ev : FqRecord)
    (hOn : reg_get32 s REG_FQCSR &&& FQCSR_FQON ≠ 0)
    (hErr : reg_get32 s REG_FQCSR &&& (FQCSR_FQOF ||| FQCSR_FQMF) = 0)
    (hFull : reg_get32 s REG_FQH &&& s.fq_mask ≠
      ((reg_get32 s REG_FQT &&& s.fq_mask) + 1) &&& s.fq_mask)
    (hDma : s.dmaWriteRes (s.fq_addr + (reg_get32 s REG_FQT &&& s.fq_mask) * 32)
      32 = .ok)
    (hMask : s.fq_mask < 2 ^ 32) :
    (riscv_iommu_fault s ev).mem =
      stLE s.mem (s.fq_addr + (reg_get32 s REG_FQT &&& s.fq_mask) * 32) 32
        (fqRecordBits ev) ∧
    reg_get32 (riscv_iommu_fault s ev) REG_FQT =
      ((reg_get32 s REG_FQT &&& s.fq_mask) + 1) &&& s.fq_mask ∧
    reg_get32 (riscv_iommu_fault s ev) REG_FQCSR = reg_get32 s REG_FQCSR ∧
    reg_get32 (riscv_iommu_fault s ev) REG_FQH = reg_get32 s REG_FQH ∧
    (riscv_iommu_fault s ev).fq_mask = s.fq_mask ∧
    (riscv_iommu_fault s ev).fq_addr = s.fq_addr ∧
    (riscv_iommu_fault s ev).dmaWriteRes = s.dmaWriteRes := by
  unfold riscv_iommu_fault
  dsimp only
  have hg : ¬(reg_get32 s REG_FQCSR &&& FQCSR_FQON = 0 ∨
      reg_get32 s REG_FQCSR &&& (FQCSR_FQOF ||| FQCSR_FQMF) ≠ 0) := by
    push_neg
    exact ⟨hOn, hErr⟩
  rw [if_neg hg, if_neg hFull]
  set addr := s.fq_addr + (reg_get32 s REG_FQT &&& s.fq_mask) * 32 with haddr
  have hdw : dmaWrite s addr (fqRecordBits ev) 32 =
      (MemTx.ok, { s with mem := stLE s.mem addr 32 (fqRecordBits ev) }) := by
    simp only [dmaWrite, hDma]
  rw [hdw]
  dsimp only
  set s1 : State := { s with mem := stLE s.mem addr 32 (fqRecordBits ev) } with hs1
  set next := ((reg_get32 s REG_FQT &&& s.fq_mask) + 1) &&& s.fq_mask with hnext
  have hnextlt : next < 2 ^ 32 :=
    Nat.lt_of_le_of_lt Nat.and_le_right hMask
  set s2 := reg_set32 s1 REG_FQT next with hs2
  have hmem2 : s2.mem = s1.mem := rfl
  have hfqt2 : reg_get32 s2 REG_FQT = next :=
    reg_get32_set32_self s1 REG_FQT next hnextlt
  have hcsr2 : reg_get32 s2 REG_FQCSR = reg_get32 s REG_FQCSR :=
    reg_get32_set32_other s1 REG_FQT next REG_FQCSR 4
      (by norm_num [REG_FQT, REG_FQCSR])
  have hfqh2 : reg_get32 s2 REG_FQH = reg_get32 s REG_FQH :=
    reg_get32_set32_other s1 REG_FQT next REG_FQH 4
      (by norm_num [REG_FQT, REG_FQH])
  split
  · obtain ⟨hmem, hfqm, hfqa, _, _, _, _, hdmw, _, _, _⟩ :=
      notify_skeleton s2 INTR_FQ
    refine ⟨by rw [hmem]; exact hmem2, ?_, ?_, ?_, hfqm, hfqa, hdmw⟩
    · rw [show reg_get32 (riscv_iommu_notify s2 INTR_FQ) REG_FQT =
          ldLE (riscv_iommu_notify s2 INTR_FQ).regs_rw REG_FQT 4 from rfl]
      rw [notify_regs_disjoint s2 INTR_FQ REG_FQT 4 (by norm_num [REG_FQT, REG_IPSR])]
      exact hfqt2
    · rw [show reg_get32 (riscv_iommu_notify s2 INTR_FQ) REG_FQCSR =
          ldLE (riscv_iommu_notify s2 INTR_FQ).regs_rw REG_FQCSR 4 from rfl]
      rw [notify_regs_disjoint s2 INTR_FQ REG_FQCSR 4
        (by norm_num [REG_FQCSR, REG_IPSR])]
      exact hcsr2
    · rw [show reg_get32 (riscv_iommu_notify s2 INTR_FQ) REG_FQH =
          ldLE (riscv_iommu_notify s2 INTR_FQ).regs_rw REG_FQH 4 from rfl]
      rw [notify_regs_disjoint s2 INTR_FQ REG_FQH 4 (by norm_num [REG_FQH, REG_IPSR])]
      exact hfqh2
  · exact ⟨hmem2, hfqt2, hcsr2, hfqh2, rfl, rfl, rfl⟩

/-! ## Page-request queue producer characterization -/

/-- A page-request push is dropped silently when the queue is not on or
has a sticky error. -/
theorem pri_inactive (s : State) (pr : PqRecord)
    (hg : reg_get32 s REG_PQCSR &&& PQCSR_PQON = 0 ∨
      reg_get32 s REG_PQCSR &&& (PQCSR_PQOF ||| PQCSR_PQMF) ≠ 0) :
    riscv_iommu_pri s pr = s := by
  unfold riscv_iommu_pri
  dsimp only
  rw [if_pos hg]

/-- A page-request push on a full ring sets PQOF, stores nothing and
leaves the tail in place. -/
theorem pri_overflow (s : State) (pr : PqRecord)
    (hOn : reg_get32 s REG_PQCSR &&& PQCSR_PQON ≠ 0)
    (hErr : reg_get32 s REG_PQCSR &&& (PQCSR_PQOF ||| PQCSR_PQMF) = 0)
    (hFull : reg_get32 s REG_PQH &&& s.pq_mask =
      ((reg_get32 s REG_PQT &&& s.pq_mask) + 1) &&& s.pq_mask) :
    (riscv_iommu_pri s pr).mem = s.mem ∧
    reg_get32 (riscv_iommu_pri s pr) REG_PQT = reg_get32 s REG_PQT ∧
    reg_get32 (riscv_iommu_pri s pr) REG_PQCSR &&& PQCSR_PQOF ≠ 0 := by
  unfold riscv_iommu_pri
  dsimp only
  have hg : ¬(reg_get32 s REG_PQCSR &&& PQCSR_PQON = 0 ∨
      reg_get32 s REG_PQCSR &&& (PQCSR_PQOF ||| PQCSR_PQMF) ≠ 0) := by
    push_neg
    exact ⟨hOn, hErr⟩
  rw [if_neg hg, if_pos hFull]
  set s1 := (reg_mod32 s REG_PQCSR PQCSR_PQOF 0).2 with hs1
  have hmem1 : s1.mem = s.mem := rfl
  have hpqt1 : reg_get32 s1 REG_PQT = reg_get32 s REG_PQT :=
    reg_get32_mod32_other s REG_PQCSR PQCSR_PQOF 0 REG_PQT 4
      (by norm_num [REG_PQT, REG_PQCSR])
  have hof1 : reg_get32 s1 REG_PQCSR &&& PQCSR_PQOF ≠ 0 := by
    rw [hs1, reg_get32_mod32_self s REG_PQCSR PQCSR_PQOF 0 (by decide)]
    exact lor_bit_test _ 9
  split
  · refine ⟨by rw [notify_mem, hmem1], ?_, ?_⟩
    · rw [show reg_get32 (riscv_iommu_notify s1 INTR_PQ) REG_PQT =
          ldLE (riscv_iommu_notify s1 INTR_PQ).regs_rw REG_PQT 4 from rfl]
      rw [notify_regs_disjoint s1 INTR_PQ REG_PQT 4 (by norm_num [REG_PQT, REG_IPSR])]
      exact hpqt1
    · rw [show reg_get32 (riscv_iommu_notify s1 INTR_PQ) REG_PQCSR =
          ldLE (riscv_iommu_notify s1 INTR_PQ).regs_rw REG_PQCSR 4 from rfl]
      rw [notify_regs_disjoint s1 INTR_PQ REG_PQCSR 4
        (by norm_num [REG_PQCSR, REG_IPSR])]
      exact hof1
  · exact ⟨hmem1, hpqt1, hof1⟩

/-! ## Command queue loop invariants -/

theorem reg_get32_set32_self_mod (s : State) (off v : Nat) :
    reg_get32 (reg_set32 s off v) off = v % 2 ^ 32 := by
  unfold reg_get32 reg_set32
  rw [ldLE_stLE, pow256_4]

theorem notify_cq_mask (s : State) (vec : Nat) :
    (riscv_iommu_notify s vec).cq_mask = s.cq_mask := by
  unfold riscv_iommu_notify
  dsimp only
  split
  · rfl
  · split <;> rfl

theorem cqFaultExit_cq_mask (t : State) (ctrl : Nat) :
    (cqFaultExit t ctrl).cq_mask = t.cq_mask := by
  unfold cqFaultExit
  split
  · exact notify_cq_mask t INTR_CQ
  · rfl

theorem cqFaultExit_regs_disjoint (t : State) (ctrl off n : Nat)
    (h : off + n ≤ REG_IPSR ∨ REG_IPSR + 4 ≤ off) :
    ldLE (cqFaultExit t ctrl).regs_rw off n = ldLE t.regs_rw off n := by
  unfold cqFaultExit
  split
  · exact notify_regs_disjoint t INTR_CQ off n h
  · rfl

theorem iofence_preserves (s : State) (b : Bool) (a d : Nat) :
    (riscv_iommu_iofence s b a d).2.regs_rw = s.regs_rw ∧
    (riscv_iommu_iofence s b a d).2.cq_mask = s.cq_mask := by
  unfold riscv_iommu_iofence dmaWrite
  split
  · exact ⟨rfl, rfl⟩
  · split <;> exact ⟨rfl, rfl⟩

theorem iofence_pair_preserves (s : State) (b : Bool) (a d : Nat)
    (r : MemTx × State) (h : riscv_iommu_iofence s b a d = r) :
    r.2.regs_rw = s.regs_rw ∧ r.2.cq_mask = s.cq_mask := by
  subst h
  exact iofence_preserves s b a d

/-- Through the command loop, the latched mask is unchanged and the CQH
register is either untouched or holds a masked (in-range) index. -/
theorem processCqLoop_cqh : ∀ (fuel : Nat) (s : State) (ctrl tail head : Nat),
    (processCqLoop s ctrl tail head fuel).cq_mask = s.cq_mask ∧
    (reg_get32 (processCqLoop s ctrl tail head fuel) REG_CQH =
        reg_get32 s REG_CQH ∨
      reg_get32 (processCqLoop s ctrl tail head fuel) REG_CQH ≤ s.cq_mask) := by
  intro fuel
  induction fuel with
  | zero =>
    intro s ctrl tail head
    exact ⟨rfl, Or.inl rfl⟩
  | succ fuel ih =>
    intro s ctrl tail head
    have hAdv : ∀ (t : State), t.cq_mask = s.cq_mask → t.regs_rw = s.regs_rw →
        ∀ hd : Nat,
        (processCqLoop (reg_set32 t REG_CQH ((hd + 1) &&& t.cq_mask)) ctrl tail
            ((hd + 1) &&& t.cq_mask) fuel).cq_mask = s.cq_mask ∧
        (reg_get32 (processCqLoop (reg_set32 t REG_CQH ((hd + 1) &&& t.cq_mask))
              ctrl tail ((hd + 1) &&& t.cq_mask) fuel) REG_CQH =
            reg_get32 s REG_CQH ∨
          reg_get32 (processCqLoop (reg_set32 t REG_CQH ((hd + 1) &&& t.cq_mask))
              ctrl tail ((hd + 1) &&& t.cq_mask) fuel) REG_CQH ≤ s.cq_mask) := by
      intro t hmask _hregs hd
      obtain ⟨hm, hor⟩ := ih (reg_set32 t REG_CQH ((hd + 1) &&& t.cq_mask)) ctrl
        tail ((hd + 1) &&& t.cq_mask)
      have hm2 : (reg_set32 t REG_CQH ((hd + 1) &&& t.cq_mask)).cq_mask =
          s.cq_mask := hmask
      refine ⟨hm.trans hm2, Or.inr ?_⟩
      rcases hor with hor | hor
      · rw [hor, reg_get32_set32_self_mod]
        calc ((hd + 1) &&& t.cq_mask) % 2 ^ 32 ≤ (hd + 1) &&& t.cq_mask :=
              Nat.mod_le _ _
          _ ≤ t.cq_mask := Nat.and_le_right
          _ = s.cq_mask := hmask
      · rw [hm2] at hor
        exact hor
    have hExit : ∀ (t : State) (b : Nat), t.cq_mask = s.cq_mask →
        t.regs_rw = s.regs_rw →
        (cqFaultExit (reg_mod32 t REG_CQCSR b 0).2 ctrl).cq_mask = s.cq_mask ∧
        (reg_get32 (cqFaultExit (reg_mod32 t REG_CQCSR b 0).2 ctrl) REG_CQH =
            reg_get32 s REG_CQH ∨
          reg_get32 (cqFaultExit (reg_mod32 t REG_CQCSR b 0).2 ctrl) REG_CQH ≤
            s.cq_mask) := by
      intro t b hmask hregs
      constructor
      · rw [cqFaultExit_cq_mask]
        exact hmask
      · left
        rw [show reg_get32 (cqFaultExit (reg_mod32 t REG_CQCSR b 0).2 ctrl)
            REG_CQH = ldLE (cqFaultExit (reg_mod32 t REG_CQCSR b 0).2
              ctrl).regs_rw REG_CQH 4 from rfl]
        rw [cqFaultExit_regs_disjoint _ _ _ _ (by norm_num [REG_CQH, REG_IPSR])]
        rw [reg_get32_mod32_other _ _ _ _ _ _ (by norm_num [REG_CQH, REG_CQCSR])]
        simp only [reg_get32, hregs]
    unfold processCqLoop
    dsimp only
    split
    · exact ⟨rfl, Or.inl rfl⟩
    · split
      · -- command fetched
        split
        · -- IOFENCE.C
          split
          · -- success: advance
            rename_i s1 heq
            have hpres := iofence_pair_preserves _ _ _ _ _ heq
            exact hAdv s1 hpres.2 hpres.1 head
          · -- DMA failure on the fence write
            rename_i res s1 hres heq
            have hpres := iofence_pair_preserves _ _ _ _ _ heq
            exact hExit s1 CQCSR_CQMF hpres.2 hpres.1
        · split
          · -- IOTINVAL.GVMA
            split
            · exact hExit s CQCSR_CMD_ILL rfl rfl
            · exact hAdv s rfl rfl head
          · split
            · -- IOTINVAL.VMA
              exact hAdv s rfl rfl head
            · split
              · -- IODIR.INVAL_DDT
                split <;> exact hAdv _ (by rfl) (by rfl) head
              · split
                · -- IODIR.INVAL_PDT
                  split
                  · exact hExit s CQCSR_CMD_ILL rfl rfl
                  · exact hAdv _ (by rfl) (by rfl) head
                · -- unknown opcode
                  exact hExit s CQCSR_CMD_ILL rfl rfl
      all_goals exact hExit s CQCSR_CQMF rfl rfl

/-- The CQH register after `riscv_iommu_process_cq_tail` is either its
prior value or a masked in-range index. -/
theorem process_cq_tail_cqh (s : State) :
    reg_get32 (riscv_iommu_process_cq_tail s) REG_CQH = reg_get32 s REG_CQH ∨
    reg_get32 (riscv_iommu_process_cq_tail s) REG_CQH ≤ s.cq_mask := by
  unfold riscv_iommu_process_cq_tail
  dsimp only
  split
  · exact Or.inl rfl
  · exact (processCqLoop_cqh _ s _ _ _).2

/-! ## Claim theorems -/

/-- A concrete base state used by witnesses: all registers and memory
zero, all DMA transactions succeed. -/
def emptyState : State where
  regs_rw := fun _ => 0
  regs_ro := fun _ => 0
  regs_wc := fun _ => 0
  mem := fun _ => 0
  dmaReadRes := fun _ _ => .ok
  dmaWriteRes := fun _ _ => .ok
  cq_mask := 0
  cq_addr := 0
  fq_mask := 0
  fq_addr := 0
  pq_mask := 0
  pq_addr := 0
  ddtp := 0
  cap := 0
  enable_msi := true
  notifyPresent := true
  irqs := []
  ctx_cache := []

/-- C8: with `tc.DTF = 1`, `riscv_iommu_report_fault` emits no
fault-queue record (the state is unchanged) unless the cause is one of
DMA_DISABLED, DDT_LOAD_FAULT, DDT_INVALID, DDT_MISCONFIGURED,
DDT_CORRUPTED, INTERNAL_DP_ERROR, MSI_WR_FAULT; in particular a
PDT_LOAD_FAULT cause produces no record, while a DDT_LOAD_FAULT cause
still stores a record and advances the tail on an active, non-full
queue with working DMA. -/
theorem C8_dtf_suppression (s : State) (ctx : Ctx) (ft : Nat) (pv : Bool)
    (iotval iotval2 : Nat) (hdtf : ctx.tc &&& DC_TC_DTF ≠ 0) :
    (∀ cause, cause ≠ CAUSE_DMA_DISABLED → cause ≠ CAUSE_DDT_LOAD_FAULT →
      cause ≠ CAUSE_DDT_INVALID → cause ≠ CAUSE_DDT_MISCONFIGURED →
      cause ≠ CAUSE_DDT_CORRUPTED → cause ≠ CAUSE_INTERNAL_DP_ERROR →
      cause ≠ CAUSE_MSI_WR_FAULT →
      riscv_iommu_report_fault s ctx ft cause pv iotval iotval2 = s) ∧
    riscv_iommu_report_fault s ctx ft CAUSE_PDT_LOAD_FAULT pv iotval iotval2 = s ∧
    (reg_get32 s REG_FQCSR &&& FQCSR_FQON ≠ 0 →
      reg_get32 s REG_FQCSR &&& (FQCSR_FQOF ||| FQCSR_FQMF) = 0 →
      reg_get32 s REG_FQH &&& s.fq_mask ≠
        ((reg_get32 s REG_FQT &&& s.fq_mask) + 1) &&& s.fq_mask →
      s.dmaWriteRes (s.fq_addr + (reg_get32 s REG_FQT &&& s.fq_mask) * 32) 32 =
        .ok →
      s.fq_mask < 2 ^ 32 →
      (riscv_iommu_report_fault s ctx ft CAUSE_DDT_LOAD_FAULT pv iotval
          iotval2).mem =
        stLE s.mem (s.fq_addr + (reg_get32 s REG_FQT &&& s.fq_mask) * 32) 32
          (fqRecordBits
            (reportRecord ctx ft CAUSE_DDT_LOAD_FAULT pv iotval iotval2)) ∧
      reg_get32 (riscv_iommu_report_fault s ctx ft CAUSE_DDT_LOAD_FAULT pv
          iotval iotval2) REG_FQT =
        ((reg_get32 s REG_FQT &&& s.fq_mask) + 1) &&& s.fq_mask) := by
  have hsup : ∀ cause, dtfAllowed cause = false →
      riscv_iommu_report_fault s ctx ft cause pv iotval iotval2 = s := by
    intro cause hda
    unfold riscv_iommu_report_fault
    rw [if_pos ⟨hdtf, by simp [hda]⟩]
  have hpass : riscv_iommu_report_fault s ctx ft CAUSE_DDT_LOAD_FAULT pv iotval
      iotval2 =
      riscv_iommu_fault s
        (reportRecord ctx ft CAUSE_DDT_LOAD_FAULT pv iotval iotval2) := by
    unfold riscv_iommu_report_fault
    rw [if_neg (fun hc => hc.2 (by decide))]
  refine ⟨?_, ?_, ?_⟩
  · intro cause h1 h2 h3 h4 h5 h6 h7
    apply hsup
    unfold dtfAllowed
    rw [if_neg h1, if_neg h2, if_neg h3, if_neg h4, if_neg h5, if_neg h6,
      if_neg h7]
  · exact hsup CAUSE_PDT_LOAD_FAULT (by decide)
  · intro hOn hErr hFull hDma hMask
    rw [hpass]
    have h := fault_push s
      (reportRecord ctx ft CAUSE_DDT_LOAD_FAULT pv iotval iotval2)
      hOn hErr hFull hDma hMask
    exact ⟨h.1, h.2.1⟩

/-- A concrete state for the C8 witness: fault queue enabled and on,
`tc.DTF` set. -/
def c8Regs : Nat → Nat := fun a =>
  if a = 0x4C then 1 else if a = 0x4E then 1 else 0

def c8State : State :=
  { emptyState with regs_rw := c8Regs, fq_mask := 3, fq_addr := 0x1000 }

def c8Ctx : Ctx :=
  { devid := 1, process_id := 0, tc := DC_TC_DTF, ta := 0, msi_addr_mask := 0,
    msi_addr_pattern := 0, msiptp := 0 }

theorem C8_dtf_suppression_witness :
    riscv_iommu_report_fault c8State c8Ctx FQ_TTYPE_UADDR_RD
      CAUSE_PDT_LOAD_FAULT false 0 0 = c8State ∧
    reg_get32 (riscv_iommu_report_fault c8State c8Ctx FQ_TTYPE_UADDR_RD
      CAUSE_DDT_LOAD_FAULT false 0 0) REG_FQT = 1 := by
  have h := C8_dtf_suppression c8State c8Ctx FQ_TTYPE_UADDR_RD false 0 0
    (by decide)
  refine ⟨h.2.1, ?_⟩
  have h3 := h.2.2 (by decide) (by decide) (by decide) (by decide) (by decide)
  exact h3.2.trans (by decide)

/-- C3: the head and tail indices used to address the fault, page-request
and command rings are masked with `size - 1` and hence strictly below the
ring size; no record is written to a full ring (`head = (tail+1) & mask`):
the record is dropped, the tail does not move, and on an on-line queue
without sticky errors the overflow bit (FQOF / PQOF) is set; the CQH
index stored by command processing is its prior value or a masked index. -/
theorem C3_ring_index_masking (s : State) (ev : FqRecord) (pr : PqRecord) :
    reg_get32 s REG_FQH &&& s.fq_mask < s.fq_mask + 1 ∧
    reg_get32 s REG_FQT &&& s.fq_mask < s.fq_mask + 1 ∧
    reg_get32 s REG_PQH &&& s.pq_mask < s.pq_mask + 1 ∧
    reg_get32 s REG_PQT &&& s.pq_mask < s.pq_mask + 1 ∧
    reg_get32 s REG_CQH &&& s.cq_mask < s.cq_mask + 1 ∧
    reg_get32 s REG_CQT &&& s.cq_mask < s.cq_mask + 1 ∧
    (reg_get32 s REG_FQH &&& s.fq_mask =
        ((reg_get32 s REG_FQT &&& s.fq_mask) + 1) &&& s.fq_mask →
      (riscv_iommu_fault s ev).mem = s.mem ∧
      reg_get32 (riscv_iommu_fault s ev) REG_FQT = reg_get32 s REG_FQT ∧
      (reg_get32 s REG_FQCSR &&& FQCSR_FQON ≠ 0 →
        reg_get32 s REG_FQCSR &&& (FQCSR_FQOF ||| FQCSR_FQMF) = 0 →
        reg_get32 (riscv_iommu_fault s ev) REG_FQCSR &&& FQCSR_FQOF ≠ 0)) ∧
    (reg_get32 s REG_PQH &&& s.pq_mask =
        ((reg_get32 s REG_PQT &&& s.pq_mask) + 1) &&& s.pq_mask →
      (riscv_iommu_pri s pr).mem = s.mem ∧
      reg_get32 (riscv_iommu_pri s pr) REG_PQT = reg_get32 s REG_PQT ∧
      (reg_get32 s REG_PQCSR &&& PQCSR_PQON ≠ 0 →
        reg_get32 s REG_PQCSR &&& (PQCSR_PQOF ||| PQCSR_PQMF) = 0 →
        reg_get32 (riscv_iommu_pri s pr) REG_PQCSR &&& PQCSR_PQOF ≠ 0)) ∧
    (reg_get32 (riscv_iommu_process_cq_tail s) REG_CQH = reg_get32 s REG_CQH ∨
      reg_get32 (riscv_iommu_process_cq_tail s) REG_CQH ≤ s.cq_mask) := by
  refine ⟨Nat.lt_succ_of_le Nat.and_le_right, Nat.lt_succ_of_le Nat.and_le_right,
    Nat.lt_succ_of_le Nat.and_le_right, Nat.lt_succ_of_le Nat.and_le_right,
    Nat.lt_succ_of_le Nat.and_le_right, Nat.lt_succ_of_le Nat.and_le_right,
    ?_, ?_, process_cq_tail_cqh s⟩
  · intro hFull
    by_cases hOn : reg_get32 s REG_FQCSR &&& FQCSR_FQON = 0
    · rw [fault_inactive s ev (Or.inl hOn)]
      exact ⟨rfl, rfl, fun h1 _ => absurd hOn h1⟩
    · by_cases hErr : reg_get32 s REG_FQCSR &&& (FQCSR_FQOF ||| FQCSR_FQMF) = 0
      · have h := fault_overflow s ev hOn hErr hFull
        exact ⟨h.1, h.2.1, fun _ _ => h.2.2⟩
      · rw [fault_inactive s ev (Or.inr hErr)]
        exact ⟨rfl, rfl, fun _ h2 => absurd h2 hErr⟩
  · intro hFull
    by_cases hOn : reg_get32 s REG_PQCSR &&& PQCSR_PQON = 0
    · rw [pri_inactive s pr (Or.inl hOn)]
      exact ⟨rfl, rfl, fun h1 _ => absurd hOn h1⟩
    · by_cases hErr : reg_get32 s REG_PQCSR &&& (PQCSR_PQOF ||| PQCSR_PQMF) = 0
      · have h := pri_overflow s pr hOn hErr hFull
        exact ⟨h.1, h.2.1, fun _ _ => h.2.2⟩
      · rw [pri_inactive s pr (Or.inr hErr)]
        exact ⟨rfl, rfl, fun _ h2 => absurd h2 hErr⟩

/-- A concrete state with both producer rings full (size 2, head one
ahead of tail) and both queues on. -/
def c3Regs : Nat → Nat := fun a =>
  if a = 0x4C then 1 else if a = 0x4E then 1 else
  if a = 0x30 then 1 else
  if a = 0x50 then 1 else if a = 0x52 then 1 else
  if a = 0x40 then 1 else 0

def c3State : State :=
  { emptyState with regs_rw := c3Regs, fq_mask := 1, pq_mask := 1,
                    fq_addr := 0x2000, pq_addr := 0x3000 }

def c3Ev : FqRecord := { hdr := 0x1111, iotval := 0, iotval2 := 0 }

def c3Pr : PqRecord := { hdr := 0x2222, payload := 0 }

/-- C4 (amended): with the fault queue on, of size 2 (mask 1), no sticky
errors and head == tail == 0, the first record is stored at slot 0 and the
tail advances to 1; the second push is dropped with FQCSR.FQOF set
(head == (tail+1) & mask: a size-2 ring holds one record); the third push
is dropped silently with the state unchanged. -/
theorem C4_fq_overflow_size2 (s : State) (e1 e2 e3 : FqRecord)
    (hOn : reg_get32 s REG_FQCSR &&& FQCSR_FQON ≠ 0)
    (hErr : reg_get32 s REG_FQCSR &&& (FQCSR_FQOF ||| FQCSR_FQMF) = 0)
    (hH : reg_get32 s REG_FQH = 0)
    (hT : reg_get32 s REG_FQT = 0)
    (hMask : s.fq_mask = 1)
    (hDma : ∀ a n, s.dmaWriteRes a n = MemTx.ok) :
    (riscv_iommu_fault s e1).mem = stLE s.mem s.fq_addr 32 (fqRecordBits e1) ∧
    reg_get32 (riscv_iommu_fault s e1) REG_FQT = 1 ∧
    (riscv_iommu_fault (riscv_iommu_fault s e1) e2).mem =
      (riscv_iommu_fault s e1).mem ∧
    reg_get32 (riscv_iommu_fault (riscv_iommu_fault s e1) e2) REG_FQT = 1 ∧
    reg_get32 (riscv_iommu_fault (riscv_iommu_fault s e1) e2) REG_FQCSR &&&
      FQCSR_FQOF ≠ 0 ∧
    riscv_iommu_fault (riscv_iommu_fault (riscv_iommu_fault s e1) e2) e3 =
      riscv_iommu_fault (riscv_iommu_fault s e1) e2 := by
  have hFull1 : reg_get32 s REG_FQH &&& s.fq_mask ≠
      ((reg_get32 s REG_FQT &&& s.fq_mask) + 1) &&& s.fq_mask := by
    rw [hH, hT, hMask]
    decide
  have h1 := fault_push s e1 hOn hErr hFull1 (hDma _ _)
    (by rw [hMask]; norm_num)
  obtain ⟨h1mem, h1fqt, h1csr, h1fqh, h1m, h1a, h1d⟩ := h1
  rw [hT, hMask] at h1mem h1fqt
  have haddr0 : s.fq_addr + (0 &&& 1) * 32 = s.fq_addr := by norm_num
  rw [haddr0] at h1mem
  set s1 := riscv_iommu_fault s e1 with hs1
  have hfqt1 : reg_get32 s1 REG_FQT = 1 := h1fqt.trans (by decide)
  have hOn1 : reg_get32 s1 REG_FQCSR &&& FQCSR_FQON ≠ 0 := by
    rw [h1csr]
    exact hOn
  have hErr1 : reg_get32 s1 REG_FQCSR &&& (FQCSR_FQOF ||| FQCSR_FQMF) = 0 := by
    rw [h1csr]
    exact hErr
  have hFull2 : reg_get32 s1 REG_FQH &&& s1.fq_mask =
      ((reg_get32 s1 REG_FQT &&& s1.fq_mask) + 1) &&& s1.fq_mask := by
    rw [h1fqh, hH, h1m, hMask, hfqt1]
    decide
  have h2 := fault_overflow s1 e2 hOn1 hErr1 hFull2
  obtain ⟨h2mem, h2fqt, h2of⟩ := h2
  have h3 := fault_inactive (riscv_iommu_fault s1 e2) e3
    (Or.inr (land_lor_ne_zero_left _ _ _ h2of))
  exact ⟨h1mem, hfqt1, h2mem, h2fqt.trans hfqt1, h2of, h3⟩

/-- A concrete state for C4: fault queue on with a size-2 ring. -/
def c4Regs : Nat → Nat := fun a =>
  if a = 0x4C then 1 else if a = 0x4E then 1 else 0

def c4State : State :=
  { emptyState with regs_rw := c4Regs, fq_mask := 1, fq_addr := 0x4000 }

def c4e1 : FqRecord := { hdr := 0x11, iotval := 0, iotval2 := 0 }

def c4e2 : FqRecord := { hdr := 0x22, iotval := 0, iotval2 := 0 }

/-- C4 counterexample: on a size-2 ring with head == tail == 0, after the
SECOND push the tail is still 1 (not wrapped to 0), the second record was
NOT stored at slot 1 (byte 0x4020 is still 0, not 0x22), and FQCSR.FQOF
is already set — so the second push, not the third, overflows. -/
theorem C4_fq_overflow_counterexample :
    reg_get32 (riscv_iommu_fault (riscv_iommu_fault c4State c4e1) c4e2)
      REG_FQT = 1 ∧
    (riscv_iommu_fault (riscv_iommu_fault c4State c4e1) c4e2).mem 0x4020 = 0 ∧
    reg_get32 (riscv_iommu_fault (riscv_iommu_fault c4State c4e1) c4e2)
      REG_FQCSR &&& FQCSR_FQOF ≠ 0 := by
  decide

theorem C4_fq_overflow_size2_witness :
    (riscv_iommu_fault c4State c4e1).mem =
      stLE c4State.mem 0x4000 32 (fqRecordBits c4e1) ∧
    reg_get32 (riscv_iommu_fault c4State c4e1) REG_FQT = 1 ∧
    reg_get32 (riscv_iommu_fault (riscv_iommu_fault c4State c4e1) c4e2)
      REG_FQCSR &&& FQCSR_FQOF ≠ 0 := by
  have h := C4_fq_overflow_size2 c4State c4e1 c4e2 c4e2 (by decide) (by decide)
    (by decide) (by decide) (by decide) (fun _ _ => rfl)
  exact ⟨h.1, h.2.1, h.2.2.2.2.1⟩

theorem C3_ring_index_masking_witness :
    (riscv_iommu_fault c3State c3Ev).mem = c3State.mem ∧
    reg_get32 (riscv_iommu_fault c3State c3Ev) REG_FQCSR &&& FQCSR_FQOF ≠ 0 ∧
    (riscv_iommu_pri c3State c3Pr).mem = c3State.mem ∧
    reg_get32 (riscv_iommu_pri c3State c3Pr) REG_PQCSR &&& PQCSR_PQOF ≠ 0 := by
  have h := C3_ring_index_masking c3State c3Ev c3Pr
  obtain ⟨-, -, -, -, -, -, hfq, hpq, -⟩ := h
  have hfq2 := hfq (by decide)
  have hpq2 := hpq (by decide)
  exact ⟨hfq2.1, hfq2.2.2 (by decide) (by decide), hpq2.1,
    hpq2.2.2 (by decide) (by decide)⟩


/-- C10: every fault record composed by `riscv_iommu_report_fault`
carries the header PV bit set to 1, regardless of the `pv` argument;
`pv = false` only omits the PID field (the header for `pv = true` is the
`pv = false` header with the PID field deposited), so even a fault for a
transaction without a process_id is reported with PV = 1. -/
theorem C10_report_fault_pv_always_set (ctx : Ctx) (ft cause : Nat) (pv : Bool)
    (iotval iotval2 : Nat) :
    (reportRecord ctx ft cause pv iotval iotval2).hdr &&& FQ_HDR_PV ≠ 0 ∧
    getField (reportRecord ctx ft cause false iotval iotval2).hdr
      FQ_HDR_PID_LO FQ_HDR_PID_W = 0 ∧
    reportRecord ctx ft cause true iotval iotval2 =
      { reportRecord ctx ft cause false iotval iotval2 with
          hdr := setField (reportRecord ctx ft cause false iotval iotval2).hdr
            FQ_HDR_PID_LO FQ_HDR_PID_W ctx.process_id } := by
  have hpvbit : ∀ h3 : Nat, (setField h3 FQ_HDR_PV_LO 1 1).testBit 32 = true := by
    intro h3
    rw [show FQ_HDR_PV_LO = 32 from rfl]
    rw [testBit_setField_inside h3 32 1 1 32 (by omega) (by omega)]
    decide
  refine ⟨?_, ?_, ?_⟩
  · rw [show FQ_HDR_PV = 1 <<< 32 from rfl, land_bit_ne_zero_iff]
    cases pv
    · simp only [reportRecord]
      exact hpvbit _
    · simp only [reportRecord]
      rw [if_pos trivial]
      rw [show FQ_HDR_PID_LO = 12 from rfl, show FQ_HDR_PID_W = 20 from rfl]
      rw [testBit_setField_outside _ 12 20 _ 32 (by omega) (by omega)]
      exact hpvbit _
  · simp only [reportRecord]
    rw [if_neg Bool.false_ne_true]
    apply Nat.eq_of_testBit_eq
    intro j
    rw [testBit_getField, Nat.zero_testBit]
    by_cases hj : j < FQ_HDR_PID_W
    · have hj20 : j < 20 := hj
      rw [show FQ_HDR_PID_LO = 12 from rfl, show FQ_HDR_PV_LO = 32 from rfl]
      rw [testBit_setField_outside _ 32 1 1 (12 + j) (by omega) (by omega)]
      rw [show FQ_HDR_DID_LO = 40 from rfl, show FQ_HDR_DID_W = 24 from rfl]
      rw [testBit_setField_outside _ 40 24 _ (12 + j) (by omega) (by omega)]
      rw [show FQ_HDR_TTYPE_LO = 34 from rfl, show FQ_HDR_TTYPE_W = 6 from rfl]
      rw [testBit_setField_outside _ 34 6 _ (12 + j) (by omega) (by omega)]
      rw [show FQ_HDR_CAUSE_LO = 0 from rfl, show FQ_HDR_CAUSE_W = 12 from rfl]
      rw [testBit_setField_outside 0 0 12 _ (12 + j) (by omega) (by omega)]
      simp
    · simp [hj]
  · rfl

/-- C1: the scenario of the claim — `msi_addr_mask = 0xFF`,
`msi_addr_pattern = 0x500`, `msiptp = {MODE=FLAT, PPN=0x200}`, MSI PTE at
`0x200000 + 3*16` equal to `{V=1, M=BASIC, PPN=0x300}` (first PTE word
`0xC0007`), and a size-4 write of `0xDEAD` to GPA `(0x500|3)<<12 | 0x8 =
0x503008`. -/
def c1Mem : Nat → Nat := fun a =>
  if a = 0x200030 then 0x07 else if a = 0x200032 then 0x0C else 0

def c1State : State := { emptyState with mem := c1Mem }

def c1Ctx : Ctx :=
  { devid := 1, process_id := 0, tc := 0, ta := 0, msi_addr_mask := 0xFF,
    msi_addr_pattern := 0x500, msiptp := (1 <<< 60) ||| 0x200 }

/-- C1: evaluating `riscv_iommu_msi_write` at the claim's input.  The
write succeeds, but the four bytes at `0x300008 = PTE.PPN<<12 + (GPA &
0xFFF)` are untouched (still 0, not 0xDEAD): the BASIC branch computes
its target as `PPN_PHYS(pte.PPN) | (gpa & TARGET_PAGE_MASK)`, i.e. it
ORs in the page-number bits `gpa & ~0xFFF` instead of the page offset,
landing the data at `0x300000 | 0x503000 = 0x703000`. -/
theorem C1_msi_write_basic_divergence :
    (riscv_iommu_msi_write c1State c1Ctx 0x503008 0xDEAD 4).1 = MemTx.ok ∧
    ldLE (riscv_iommu_msi_write c1State c1Ctx 0x503008 0xDEAD 4).2.mem
      0x300008 4 = 0 ∧
    ldLE (riscv_iommu_msi_write c1State c1Ctx 0x503008 0xDEAD 4).2.mem
      0x703000 4 = 0xDEAD := by
  decide

theorem land_compl64_bit (x k : Nat) (_hk : k < 64) :
    (x &&& compl64 (1 <<< k)) &&& (1 <<< k) = 0 := by
  rw [land_bit_eq_zero_iff, Nat.testBit_and, testBit_compl64,
    shiftLeft_one_eq, Nat.testBit_two_pow_self]
  simp

/-- The invalidation sweeps preserve the cache key of every entry. -/
theorem ctxInvalDevid_key (k c : Ctx) :
    (ctxInvalDevid k c).devid = c.devid ∧
    (ctxInvalDevid k c).process_id = c.process_id := by
  unfold ctxInvalDevid
  split <;> exact ⟨rfl, rfl⟩

theorem ctxLookup_map_keep (cache : List Ctx) (f : Ctx → Ctx)
    (hf : ∀ c, (f c).devid = c.devid ∧ (f c).process_id = c.process_id)
    (key : Ctx) :
    ctxLookup (cache.map f) key = (ctxLookup cache key).map f := by
  unfold ctxLookup
  rw [List.find?_map]
  have hp : (ctxKeyEq key ∘ f) = ctxKeyEq key := by
    funext c
    simp [Function.comp, ctxKeyEq, (hf c).1, (hf c).2]
  rw [hp]

theorem ctx_alloc_walked (s : State) (devid pid : Nat) :
    (riscv_iommu_ctx_alloc s devid pid).walked = true := by
  unfold riscv_iommu_ctx_alloc
  dsimp only
  split <;> rfl

/-- C9: after `IODIR.INVAL_DDT` with `DV=1, DID=d` (which applies
`__ctx_inval_devid` over the cache), every lookup for device `d` — any
process id — finds its cached entry with `tc.V` cleared, treats it as
absent and performs a fresh directory walk, while a valid cached context
of any other device `d2 ≠ d` is returned from the cache without a
re-walk and with the state unchanged. -/
theorem C9_inval_ddt_scope (s : State) (d : Nat) (hd : d < 2 ^ 24) :
    (∀ p, (riscv_iommu_ctx
      (riscv_iommu_ctx_inval s (ctxInvalDevid (mkCtxKey d 0))) d p).walked =
        true) ∧
    (∀ d2 p c, d2 < 2 ^ 24 → d2 ≠ d →
      ctxLookup s.ctx_cache (mkCtxKey d2 p) = some c →
      c.tc &&& DC_TC_V ≠ 0 →
      riscv_iommu_ctx (riscv_iommu_ctx_inval s (ctxInvalDevid (mkCtxKey d 0)))
          d2 p =
        { ctx := some c,
          state := riscv_iommu_ctx_inval s (ctxInvalDevid (mkCtxKey d 0)),
          walked := false }) := by
  have hkey0 : (mkCtxKey d 0).devid = d := by
    unfold mkCtxKey
    exact Nat.mod_eq_of_lt hd
  have hmap : ∀ key, ctxLookup
      (riscv_iommu_ctx_inval s (ctxInvalDevid (mkCtxKey d 0))).ctx_cache key =
      (ctxLookup s.ctx_cache key).map (ctxInvalDevid (mkCtxKey d 0)) :=
    fun key => ctxLookup_map_keep s.ctx_cache _
      (fun c => ctxInvalDevid_key _ c) key
  constructor
  · intro p
    unfold riscv_iommu_ctx
    rw [hmap (mkCtxKey d p)]
    cases hfind : ctxLookup s.ctx_cache (mkCtxKey d p) with
    | none => exact ctx_alloc_walked _ d p
    | some c =>
      have hpc : ctxKeyEq (mkCtxKey d p) c = true := List.find?_some hfind
      have hcd : c.devid = d := by
        have := (Bool.and_eq_true_iff.mp hpc).1
        have h2 : c.devid = (mkCtxKey d p).devid := by simpa using this
        rw [h2]
        unfold mkCtxKey
        exact Nat.mod_eq_of_lt hd
      have hcleared : (ctxInvalDevid (mkCtxKey d 0) c).tc &&& DC_TC_V = 0 := by
        unfold ctxInvalDevid
        split
        · exact land_compl64_bit c.tc 0 (by norm_num)
        · rename_i hcond
          by_cases hv : c.tc &&& DC_TC_V = 0
          · exact hv
          · exact absurd ⟨hv, hcd.trans hkey0.symm⟩ hcond
      dsimp only [Option.map]
      rw [if_neg (fun hc => hc hcleared)]
      exact ctx_alloc_walked _ d p
  · intro d2 p c hd2 hne hfind hvalid
    unfold riscv_iommu_ctx
    rw [hmap (mkCtxKey d2 p), hfind]
    have hpc : ctxKeyEq (mkCtxKey d2 p) c = true := List.find?_some hfind
    have hcd : c.devid = d2 := by
      have := (Bool.and_eq_true_iff.mp hpc).1
      have h2 : c.devid = (mkCtxKey d2 p).devid := by simpa using this
      rw [h2]
      unfold mkCtxKey
      exact Nat.mod_eq_of_lt hd2
    have hfix : ctxInvalDevid (mkCtxKey d 0) c = c := by
      unfold ctxInvalDevid
      rw [if_neg]
      intro hc
      exact hne (hcd.symm.trans (hc.2.trans hkey0))
    dsimp only [Option.map]
    rw [hfix, if_pos hvalid]

/-- A concrete cache for the C9 witness: valid contexts for devices 5 and
7 (process 0). -/
def c9CtxA : Ctx :=
  { devid := 5, process_id := 0, tc := DC_TC_V, ta := 0, msi_addr_mask := 0,
    msi_addr_pattern := 0, msiptp := 0 }

def c9CtxB : Ctx :=
  { devid := 7, process_id := 0, tc := DC_TC_V, ta := 0, msi_addr_mask := 0,
    msi_addr_pattern := 0, msiptp := 0 }

def c9State : State := { emptyState with ctx_cache := [c9CtxA, c9CtxB] }

theorem C9_inval_ddt_scope_witness :
    (riscv_iommu_ctx (riscv_iommu_ctx_inval c9State
      (ctxInvalDevid (mkCtxKey 5 0))) 5 0).walked = true ∧
    riscv_iommu_ctx (riscv_iommu_ctx_inval c9State
        (ctxInvalDevid (mkCtxKey 5 0))) 7 0 =
      { ctx := some c9CtxB,
        state := riscv_iommu_ctx_inval c9State (ctxInvalDevid (mkCtxKey 5 0)),
        walked := false } := by
  have h := C9_inval_ddt_scope c9State 5 (by norm_num)
  exact ⟨h.1 0, h.2 7 0 c9CtxB (by norm_num) (by norm_num) (by decide)
    (by decide)⟩

/-- The conditions under which the command dispatcher takes the
`cmd_ill` path for the command word `d0`: IOTINVAL.GVMA with PSCV set,
IODIR.INVAL_PDT with DV clear, or an opcode key outside the handled
set. -/
def illegalCmd (d0 : Nat) : Prop :=
  (getField d0 CMD_OPFUNC_LO CMD_OPFUNC_W = KEY_IOTINVAL_GVMA ∧
    d0 &&& CMD_IOTINVAL_PSCV ≠ 0) ∨
  (getField d0 CMD_OPFUNC_LO CMD_OPFUNC_W = KEY_IODIR_INVAL_PDT ∧
    d0 &&& CMD_IODIR_DV = 0) ∨
  (getField d0 CMD_OPFUNC_LO CMD_OPFUNC_W ≠ KEY_IOFENCE_C ∧
   getField d0 CMD_OPFUNC_LO CMD_OPFUNC_W ≠ KEY_IOTINVAL_GVMA ∧
   getField d0 CMD_OPFUNC_LO CMD_OPFUNC_W ≠ KEY_IOTINVAL_VMA ∧
   getField d0 CMD_OPFUNC_LO CMD_OPFUNC_W ≠ KEY_IODIR_INVAL_DDT ∧
   getField d0 CMD_OPFUNC_LO CMD_OPFUNC_W ≠ KEY_IODIR_INVAL_PDT)

/-- An illegal command at the current head makes the loop take the
`cmd_ill` exit: CQCSR.CMD_ILL is set and the fault path runs, without any
head update. -/
theorem processCqLoop_illegal (s : State) (ctrl tail head fuel : Nat)
    (hne : tail ≠ head)
    (hDma : s.dmaReadRes (s.cq_addr + head * 16) 16 = .ok)
    (hill : illegalCmd (ldLE s.mem (s.cq_addr + head * 16) 16 % 2 ^ 64)) :
    processCqLoop s ctrl tail head (fuel + 1) =
      cqFaultExit (reg_mod32 s REG_CQCSR CQCSR_CMD_ILL 0).2 ctrl := by
  unfold processCqLoop
  dsimp only
  rw [if_neg hne]
  have hread : dmaRead s (s.cq_addr + head * 16) 16 =
      (MemTx.ok, ldLE s.mem (s.cq_addr + head * 16) 16) := by
    simp [dmaRead, hDma]
  rw [hread]
  dsimp only
  rcases hill with ⟨hkey, hpscv⟩ | ⟨hkey, hdv⟩ | ⟨h1, h2, h3, h4, h5⟩
  · rw [hkey, if_neg (by decide), if_pos rfl, if_pos hpscv]
  · rw [hkey, if_neg (by decide), if_neg (by decide), if_neg (by decide),
      if_neg (by decide), if_pos rfl, if_pos hdv]
  · rw [if_neg h1, if_neg h2, if_neg h3, if_neg h4, if_neg h5]

/-- C5: when the command at the masked head has an opcode key matched by
no handler — or is IOTINVAL.GVMA with PSCV set, or IODIR.INVAL_PDT with
DV = 0 — processing sets CQCSR.CMD_ILL, leaves CQH at its prior value,
and (with CQCSR.CIE = 1, wire-signaled interrupts off, and the host
notifier present as after realize) IPSR.CIP becomes 1. -/
theorem C5_cq_illegal_command (s : State)
    (hOn : reg_get32 s REG_CQCSR &&& CQCSR_CQON ≠ 0)
    (hErr : reg_get32 s REG_CQCSR &&& (CQCSR_CMD_ILL ||| CQCSR_CQMF) = 0)
    (hne : reg_get32 s REG_CQT &&& s.cq_mask ≠ reg_get32 s REG_CQH &&& s.cq_mask)
    (hDma : s.dmaReadRes
      (s.cq_addr + (reg_get32 s REG_CQH &&& s.cq_mask) * 16) 16 = .ok)
    (hill : illegalCmd (ldLE s.mem
      (s.cq_addr + (reg_get32 s REG_CQH &&& s.cq_mask) * 16) 16 % 2 ^ 64)) :
    reg_get32 (riscv_iommu_process_cq_tail s) REG_CQCSR &&& CQCSR_CMD_ILL ≠ 0 ∧
    reg_get32 (riscv_iommu_process_cq_tail s) REG_CQH = reg_get32 s REG_CQH ∧
    (reg_get32 s REG_CQCSR &&& CQCSR_CIE ≠ 0 →
      reg_get32 s REG_FCTL &&& FCTL_WSI = 0 →
      s.notifyPresent = true →
      reg_get32 (riscv_iommu_process_cq_tail s) REG_IPSR &&& IPSR_CIP ≠ 0) := by
  have hg : ¬(reg_get32 s REG_CQCSR &&& CQCSR_CQON = 0 ∨
      reg_get32 s REG_CQCSR &&& (CQCSR_CMD_ILL ||| CQCSR_CQMF) ≠ 0) := by
    push_neg
    exact ⟨hOn, hErr⟩
  have hres : riscv_iommu_process_cq_tail s =
      cqFaultExit (reg_mod32 s REG_CQCSR CQCSR_CMD_ILL 0).2
        (reg_get32 s REG_CQCSR) := by
    unfold riscv_iommu_process_cq_tail
    dsimp only
    rw [if_neg hg]
    exact processCqLoop_illegal s (reg_get32 s REG_CQCSR)
      (reg_get32 s REG_CQT &&& s.cq_mask) (reg_get32 s REG_CQH &&& s.cq_mask)
      (s.cq_mask + 1) hne hDma hill
  rw [hres]
  set ctrl := reg_get32 s REG_CQCSR with hctrl
  set s1 := (reg_mod32 s REG_CQCSR CQCSR_CMD_ILL 0).2 with hs1
  have hcsr1 : reg_get32 s1 REG_CQCSR =
      ((reg_get32 s REG_CQCSR &&& compl32 0) ||| CQCSR_CMD_ILL) :=
    reg_get32_mod32_self s REG_CQCSR CQCSR_CMD_ILL 0 (by decide)
  refine ⟨?_, ?_, ?_⟩
  · rw [show reg_get32 (cqFaultExit s1 ctrl) REG_CQCSR =
        ldLE (cqFaultExit s1 ctrl).regs_rw REG_CQCSR 4 from rfl]
    rw [cqFaultExit_regs_disjoint s1 ctrl REG_CQCSR 4
      (by norm_num [REG_CQCSR, REG_IPSR])]
    rw [show ldLE s1.regs_rw REG_CQCSR 4 = reg_get32 s1 REG_CQCSR from rfl,
      hcsr1]
    exact lor_bit_test _ 10
  · rw [show reg_get32 (cqFaultExit s1 ctrl) REG_CQH =
        ldLE (cqFaultExit s1 ctrl).regs_rw REG_CQH 4 from rfl]
    rw [cqFaultExit_regs_disjoint s1 ctrl REG_CQH 4
      (by norm_num [REG_CQH, REG_IPSR])]
    rw [hs1, reg_get32_mod32_other s REG_CQCSR CQCSR_CMD_ILL 0 REG_CQH 4
      (by norm_num [REG_CQH, REG_CQCSR])]
    rfl
  · intro hcie hwsi hnp
    unfold cqFaultExit
    rw [if_pos hcie]
    unfold riscv_iommu_notify
    dsimp only
    have hfctl1 : reg_get32 s1 REG_FCTL &&& FCTL_WSI = 0 := by
      rw [show reg_get32 s1 REG_FCTL = ldLE s1.regs_rw REG_FCTL 4 from rfl, hs1]
      rw [reg_get32_mod32_other s REG_CQCSR CQCSR_CMD_ILL 0 REG_FCTL 4
        (by norm_num [REG_FCTL, REG_CQCSR])]
      exact hwsi
    have hnp1 : s1.notifyPresent = true := hnp
    have hcond : ¬(reg_get32 s1 REG_FCTL &&& FCTL_WSI ≠ 0 ∨ ¬s1.notifyPresent) := by
      push_neg
      exact ⟨hfctl1, hnp1⟩
    rw [if_neg hcond]
    have hipsr : reg_get32 (reg_mod32 s1 REG_IPSR (1 <<< INTR_CQ) 0).2
        REG_IPSR &&& IPSR_CIP ≠ 0 := by
      rw [reg_get32_mod32_self s1 REG_IPSR (1 <<< INTR_CQ) 0 (by decide)]
      exact lor_bit_test _ 0
    split
    · exact hipsr
    · exact hipsr

/-- A concrete state for C5: command queue on, 8 entries, CIE set, an
unknown opcode (60) at slot 0, and CQT written to 1. -/
def c5Regs : Nat → Nat := fun a =>
  if a = 0x48 then 3 else if a = 0x4A then 1 else if a = 0x24 then 1 else 0

def c5Mem : Nat → Nat := fun a => if a = 0x5000 then 60 else 0

def c5State : State :=
  { emptyState with regs_rw := c5Regs, mem := c5Mem, cq_mask := 7,
                    cq_addr := 0x5000 }

theorem C5_cq_illegal_command_witness :
    reg_get32 (riscv_iommu_process_cq_tail c5State) REG_CQCSR &&&
      CQCSR_CMD_ILL ≠ 0 ∧
    reg_get32 (riscv_iommu_process_cq_tail c5State) REG_CQH = 0 ∧
    reg_get32 (riscv_iommu_process_cq_tail c5State) REG_IPSR &&& IPSR_CIP ≠ 0 := by
  have h := C5_cq_illegal_command c5State (by decide) (by decide) (by decide)
    (by decide) (by unfold illegalCmd; decide)
  exact ⟨h.1, h.2.1.trans (by decide), h.2.2 (by decide) (by decide) rfl⟩

/-- The masked-update result is bounded by the word width. -/
theorem maskedUpdate_lt (rw ro wc v w : Nat) : maskedUpdate rw ro wc v w < 2 ^ w := by
  unfold maskedUpdate
  refine Nat.lt_of_le_of_lt Nat.and_le_right ?_
  refine Nat.xor_lt_two_pow ?_ (land_bmask_lt _ _)
  have h1 : (1 : Nat) ≤ 2 ^ w := Nat.one_le_two_pow
  simp only [bmask]
  omega

theorem pow256_eq (n : Nat) : (256 : Nat) ^ n = 2 ^ (8 * n) := by
  rw [show (256 : Nat) = 2 ^ 8 from by norm_num, ← Nat.pow_mul]

/-- A state whose IPSR holds the PMIP bit (bit 2), which the IPSR write
path never touches. -/
def c2State : State :=
  { emptyState with regs_rw := fun a => if a = 0x54 then 4 else 0 }

/-- C2 counterexample: with IPSR = 4 (PMIP pending) and all-zero `ro`
and `wc` masks, the masked-update law predicts that `write(IPSR, 4, 0)`
stores 0, but the write is diverted to the interrupt-pending update path
and the read-back still returns 4. -/
theorem C2_masked_update_counterexample :
    (riscv_iommu_mmio_write c2State REG_IPSR 0 4).1 = .ok ∧
    maskedUpdate (ldLE c2State.regs_rw REG_IPSR 4) (ldLE c2State.regs_ro REG_IPSR 4)
      (ldLE c2State.regs_wc REG_IPSR 4) 0 32 = 0 ∧
    (riscv_iommu_mmio_read (riscv_iommu_mmio_write c2State REG_IPSR 0 4).2
      REG_IPSR 4).2 = 4 := by
  decide

/-- C2 (amended): for an aligned, in-range access of size 1, 2, 4 or 8
whose 32-bit-aligned base is none of DDTP, DDTP+4, CQT, CQCSR, FQCSR,
PQCSR or IPSR, an MMIO write stores exactly the masked update
`((rw & ro) | (v & ~ro)) & ~(v & wc)` over the accessed bytes, and a
subsequent read of the same offset and size returns exactly that stored
value. -/
theorem C2_masked_update_law (s : State) (addr data size newv : Nat)
    (hsz : size = 1 ∨ size = 2 ∨ size = 4 ∨ size = 8)
    (hal : addr &&& (size - 1) = 0)
    (hrange : addr + size ≤ REG_MSI_CONFIG)
    (h1 : addr &&& compl64 3 ≠ REG_DDTP)
    (h2 : addr &&& compl64 3 ≠ REG_DDTP + 4)
    (h3 : addr &&& compl64 3 ≠ REG_CQT)
    (h4 : addr &&& compl64 3 ≠ REG_CQCSR)
    (h5 : addr &&& compl64 3 ≠ REG_FQCSR)
    (h6 : addr &&& compl64 3 ≠ REG_PQCSR)
    (h7 : addr &&& compl64 3 ≠ REG_IPSR)
    (hnv : newv = maskedUpdate (ldLE s.regs_rw addr size) (ldLE s.regs_ro addr size)
      (ldLE s.regs_wc addr size) data (8 * size)) :
    (riscv_iommu_mmio_write s addr data size).1 = .ok ∧
    (riscv_iommu_mmio_write s addr data size).2.regs_rw =
      stLE s.regs_rw addr size newv ∧
    (riscv_iommu_mmio_read (riscv_iommu_mmio_write s addr data size).2 addr size).2
      = newv := by
  have hwr : riscv_iommu_mmio_write s addr data size =
      (.ok, { s with regs_rw := stLE s.regs_rw addr size newv }) := by
    rw [hnv]
    unfold riscv_iommu_mmio_write
    dsimp only
    rw [if_neg (by simp [hal]), if_neg (by push_neg; exact hrange), if_neg h7,
      if_neg (by push_neg; exact ⟨h1, h2⟩), if_neg h3, if_neg h4, if_neg h5,
      if_neg h6]
    rw [if_neg (by simp)]
  refine ⟨by rw [hwr], ?_, ?_⟩
  · rw [hwr]
  · rw [hwr]
    unfold riscv_iommu_mmio_read
    dsimp only
    rw [if_neg (by simp [hal]), if_neg (by push_neg; exact hrange), if_pos hsz]
    dsimp only
    rw [ldLE_stLE, hnv, pow256_eq]
    exact Nat.mod_eq_of_lt (maskedUpdate_lt _ _ _ _ _)

theorem C2_masked_update_law_witness :
    (riscv_iommu_mmio_write emptyState 0x2F8 0x12345678 4).1 = .ok ∧
    (riscv_iommu_mmio_write emptyState 0x2F8 0x12345678 4).2.regs_rw =
      stLE emptyState.regs_rw 0x2F8 4 0x12345678 ∧
    (riscv_iommu_mmio_read (riscv_iommu_mmio_write emptyState 0x2F8 0x12345678 4).2
      0x2F8 4).2 = 0x12345678 :=
  C2_masked_update_law emptyState 0x2F8 0x12345678 4 0x12345678
    (by norm_num) (by decide) (by decide) (by decide) (by decide) (by decide)
    (by decide) (by decide) (by decide) (by decide) (by decide)

/-- C6: a DDTP write changes the stored mode only along allowed
transitions — same mode always; to OFF or BARE from any mode; to
1LVL/2LVL/3LVL only from OFF or BARE — and for any other written mode the
prior DDTP value is restored; on an allowed transition the stored DDTP
keeps only the PPN field and the sanitized MODE field, every other bit
zero. -/
theorem C6_ddtp_mode_transitions (s : State) :
    (riscv_iommu_process_ddtp s).ddtp =
      (if ddtpTransitionOk (getField s.ddtp DDTP_MODE_LO DDTP_MODE_W)
          (getField (reg_get64 s REG_DDTP) DDTP_MODE_LO DDTP_MODE_W) then
        setField (reg_get64 s REG_DDTP &&& DDTP_PPN) DDTP_MODE_LO DDTP_MODE_W
          (getField (reg_get64 s REG_DDTP) DDTP_MODE_LO DDTP_MODE_W)
      else s.ddtp) ∧
    (ddtpTransitionOk (getField s.ddtp DDTP_MODE_LO DDTP_MODE_W)
        (getField (reg_get64 s REG_DDTP) DDTP_MODE_LO DDTP_MODE_W) = true →
      (riscv_iommu_process_ddtp s).ddtp &&&
        compl64 (DDTP_PPN ||| fieldMask DDTP_MODE_LO DDTP_MODE_W) = 0 ∧
      (riscv_iommu_process_ddtp s).ddtp &&& DDTP_PPN =
        reg_get64 s REG_DDTP &&& DDTP_PPN ∧
      getField (riscv_iommu_process_ddtp s).ddtp DDTP_MODE_LO DDTP_MODE_W =
        getField (reg_get64 s REG_DDTP) DDTP_MODE_LO DDTP_MODE_W) := by
  have hddtp : (riscv_iommu_process_ddtp s).ddtp =
      (if ddtpTransitionOk (getField s.ddtp DDTP_MODE_LO DDTP_MODE_W)
          (getField (reg_get64 s REG_DDTP) DDTP_MODE_LO DDTP_MODE_W) then
        setField (reg_get64 s REG_DDTP &&& DDTP_PPN) DDTP_MODE_LO DDTP_MODE_W
          (getField (reg_get64 s REG_DDTP) DDTP_MODE_LO DDTP_MODE_W)
      else s.ddtp) := rfl
  refine ⟨hddtp, ?_⟩
  intro hok
  rw [hddtp, if_pos hok]
  set v := reg_get64 s REG_DDTP with hv
  set nm := getField v DDTP_MODE_LO DDTP_MODE_W with hnm
  set X := setField (v &&& DDTP_PPN) DDTP_MODE_LO DDTP_MODE_W nm with hX
  have hXout : ∀ i, 4 ≤ i → i < 64 → X.testBit i = (v &&& DDTP_PPN).testBit i := by
    intro i h4 h64
    rw [hX]
    exact testBit_setField_outside _ 0 4 _ i h64 (Or.inr h4)
  have hPPNbit : ∀ i, (DDTP_PPN).testBit i = (decide (10 ≤ i) && decide (i < 54)) := by
    intro i
    rw [show DDTP_PPN = fieldMask 10 44 from rfl, testBit_fieldMask]
  refine ⟨?_, ?_, ?_⟩
  · apply Nat.eq_of_testBit_eq
    intro i
    rw [Nat.zero_testBit, Nat.testBit_and, testBit_compl64]
    by_cases h64 : i < 64
    · by_cases hlo : i < 4
      · have hmb : (DDTP_PPN ||| fieldMask DDTP_MODE_LO DDTP_MODE_W).testBit i =
            true := by
          rw [Nat.testBit_or, testBit_fieldMask, hPPNbit]
          simp [DDTP_MODE_LO, DDTP_MODE_W]
          omega
        simp [hmb]
      · by_cases hppn : 10 ≤ i ∧ i < 54
        · have hmb : (DDTP_PPN ||| fieldMask DDTP_MODE_LO DDTP_MODE_W).testBit i =
              true := by
            rw [Nat.testBit_or, hPPNbit]
            simp [hppn.1, hppn.2]
          simp [hmb]
        · have hxb : X.testBit i = false := by
            rw [hXout i (by omega) h64, Nat.testBit_and, hPPNbit]
            rcases Nat.lt_or_ge i 10 with h10 | h10
            · simp
              omega
            · have h54 : ¬ i < 54 := by omega
              simp [h54]
          simp [hxb]
    · simp [h64]
  · apply Nat.eq_of_testBit_eq
    intro i
    rw [Nat.testBit_and, Nat.testBit_and, hPPNbit]
    by_cases hppn : 10 ≤ i ∧ i < 54
    · have h64 : i < 64 := by omega
      rw [hXout i (by omega) h64, Nat.testBit_and, hPPNbit]
      simp [Bool.and_assoc]
    · rcases Nat.lt_or_ge i 10 with h10 | h10
      · have : ¬ 10 ≤ i := by omega
        simp [this]
      · have : ¬ i < 54 := by omega
        simp [this]
  · apply Nat.eq_of_testBit_eq
    intro j
    rw [testBit_getField]
    by_cases hj : j < 4
    · rw [show DDTP_MODE_LO + j = j from by rw [show DDTP_MODE_LO = 0 from rfl]; omega]
      rw [show X.testBit j = nm.testBit (j - 0) from
        testBit_setField_inside _ 0 4 _ j (Nat.zero_le j) (by omega)]
      simp [DDTP_MODE_W, hj]
    · have hnmlt : nm < 2 ^ 4 := getField_lt v DDTP_MODE_LO DDTP_MODE_W
      have : nm.testBit j = false :=
        Nat.testBit_lt_two_pow (Nat.lt_of_lt_of_le hnmlt
          (Nat.pow_le_pow_right (by norm_num) (by omega)))
      simp [DDTP_MODE_LO, DDTP_MODE_W, hj, this]

/-- A concrete state for C6: stored mode BARE, written DDTP requesting
1LVL with PPN 0x10 and a stray reserved bit 59 that must be cleared. -/
def c6Regs : Nat → Nat := fun a =>
  if a = 0x10 then 2 else if a = 0x11 then 0x40 else if a = 0x17 then 8 else 0

def c6State : State := { emptyState with regs_rw := c6Regs, ddtp := 1 }

/-- A concrete state for the disallowed 1LVL → 2LVL transition. -/
def c6BadState : State := { emptyState with regs_rw := c6Regs, ddtp := 3 }

theorem C6_ddtp_mode_transitions_witness :
    (riscv_iommu_process_ddtp c6State).ddtp = 0x4002 ∧
    getField (riscv_iommu_process_ddtp c6State).ddtp DDTP_MODE_LO DDTP_MODE_W =
      2 ∧
    (riscv_iommu_process_ddtp c6BadState).ddtp = 3 := by
  have h1 := C6_ddtp_mode_transitions c6State
  have h2 := C6_ddtp_mode_transitions c6BadState
  refine ⟨h1.1.trans (by decide), ?_, h2.1.trans (by decide)⟩
  exact ((h1.2 (by decide)).2.2).trans (by decide)

/-- C7: the device-context fetch rejects a device_id at or above
`2 ^ (depth*9 + 6 + (extended_format && depth ≠ 2))` with cause
TTYPE_BLOCKED, where (in the claim's terms) the extended-format flag is
set exactly when `enable_msi` is false. -/
theorem C7_devid_width_check (s : State) (ctx : Ctx)
    (hmode : getField s.ddtp DDTP_MODE_LO DDTP_MODE_W = DDTP_MODE_1LVL ∨
      getField s.ddtp DDTP_MODE_LO DDTP_MODE_W = DDTP_MODE_2LVL ∨
      getField s.ddtp DDTP_MODE_LO DDTP_MODE_W = DDTP_MODE_3LVL)
    (hbound : ctx.devid ≥
      1 <<< ((getField s.ddtp DDTP_MODE_LO DDTP_MODE_W - DDTP_MODE_1LVL) * 9 + 6 +
        (if s.enable_msi = false ∧
            getField s.ddtp DDTP_MODE_LO DDTP_MODE_W - DDTP_MODE_1LVL ≠ 2
          then 1 else 0))) :
    (riscv_iommu_ctx_fetch s ctx).1 = CAUSE_TTYPE_BLOCKED := by
  unfold riscv_iommu_ctx_fetch
  dsimp only
  cases hmsi : s.enable_msi <;>
    rcases hmode with hm | hm | hm <;>
      rw [hm] at hbound ⊢ <;>
        simp only [hmsi] at hbound ⊢ <;>
          norm_num [DDTP_MODE_OFF, DDTP_MODE_BARE, DDTP_MODE_1LVL, DDTP_MODE_2LVL,
            DDTP_MODE_3LVL] at hbound ⊢ <;>
            rw [if_pos hbound]

/-- A concrete state for C7: ddtp.MODE = 1LVL, enable_msi = true and
device_id = 128, which is at the 1 <<< 6 limit. -/
def c7State : State := { emptyState with ddtp := 2 }

def c7Ctx : Ctx := mkCtxKey 128 0

theorem C7_devid_width_check_witness :
    (riscv_iommu_ctx_fetch c7State c7Ctx).1 = CAUSE_TTYPE_BLOCKED := by
  exact C7_devid_width_check c7State c7Ctx (by decide) (by decide)

end RiscvIOMMU
